import Mathlib

/-!
Verification development for the browser-automation backend
(`backend/ai_automation_service.py`, `backend/data_service.py`,
`backend/mcp_server.py`, `backend/main.py`, `backend/models.py`).

The Python service drives a headless browser through fixed workflows.  The
browser, the filesystem sink and the language model are external
collaborators: each call into them is modelled by an environment record that
carries the outcome the collaborator would return (an `ActionResult`, an
`Except` for an operation that may raise, a stored-user snapshot for the JSON
data file).  The workflow functions themselves are translated line by line
from the Python source; every step message, fail-fast check, error handler
and `finally` page close is reproduced, and the execution also records the
trace of primitive operations performed plus page open/close counts.
-/

/-- `models.MHMDPreference`: the two-valued consent enum. -/
inductive MHMDPreference
  | OPT_IN
  | OPT_OUT
deriving DecidableEq

/-- `MHMDPreference.value` in Python (`str` enum value). -/
def MHMDPreference.value : MHMDPreference → String
  | .OPT_IN => "OPT_IN"
  | .OPT_OUT => "OPT_OUT"

/-- `MHMDPreference(s)` construction: `some` when the string names a member,
`none` models the `ValueError` raised otherwise. -/
def parseMHMDPreference : String → Option MHMDPreference
  | "OPT_IN" => some .OPT_IN
  | "OPT_OUT" => some .OPT_OUT
  | _ => none

/-- `models.MHMDWorkflowInput`: all three fields optional. -/
structure MHMDWorkflowInput where
  name : Option String
  email : Option String
  preference : Option MHMDPreference
deriving DecidableEq

/-- The uniform `{success, message}` dict every Action Primitive returns. -/
structure ActionResult where
  success : Bool
  message : String
deriving DecidableEq

/-- The `"user"` object of `user_data.json` as `data_service.load_data`
yields it (all three keys are always present: `ensure_data_file_exists`
and the corrupted-file fallback both supply them). -/
structure StoredUser where
  name : String
  email : String
  mhmd_preference : String
deriving DecidableEq

/-- `models.UserData` (the pydantic `EmailStr` format validation is an
external library; the model keeps the string as stored). -/
structure UserData where
  name : String
  email : String
  mhmd_preference : MHMDPreference
deriving DecidableEq

/-- Python truthiness for an optional string: `None` and `""` are falsy. -/
def truthyOS : Option String → Bool
  | none => false
  | some s => !(s == "")

/-- Python's `str.strip()` whitespace set. -/
def isStripWs (c : Char) : Bool :=
  c == ' ' || c == '\t' || c == '\n' || c == '\r' || c == '\x0b' || c == '\x0c'

/-- Drop leading strip-whitespace characters. -/
def dropLeadingWs : List Char → List Char
  | [] => []
  | c :: cs => if isStripWs c then dropLeadingWs cs else c :: cs

/-- Python `str.strip()`: leading and trailing whitespace removed. -/
def pyStrip (s : String) : String :=
  String.mk ((dropLeadingWs (dropLeadingWs s.data).reverse).reverse)

/-- `a or b` on Python strings: the default replaces `None` and `""`. -/
def pyOrStr (o : Option String) (d : String) : String :=
  match o with
  | some s => if s == "" then d else s
  | none => d

/-- `JSONDataService.get_user_data`: `None` when name or email is falsy or
the stored preference string is not a member of the enum (the constructor
raises and the `except` returns `None`). -/
def get_user_data (u : StoredUser) : Option UserData :=
  if u.name == "" || u.email == "" then none
  else
    match parseMHMDPreference u.mhmd_preference with
    | some p => some { name := u.name, email := u.email, mhmd_preference := p }
    | none => none

/-- The dict returned by `BrowserAutomationService.get_current_mhmd_preference`.
`current_preference` is `none` exactly when the key is absent (failure dict). -/
structure PrefReadResult where
  success : Bool
  current_preference : Option String
  message : Option String
  user_name : Option String
  user_email : Option String
deriving DecidableEq

/-- `BrowserAutomationService.get_current_mhmd_preference` over a stored-user
snapshot (`JSONDataService` never raises here, so the `except` arm is dead). -/
def get_current_mhmd_preference (store : StoredUser) : PrefReadResult :=
  match get_user_data store with
  | some u =>
      { success := true
        current_preference := some u.mhmd_preference.value
        message := none
        user_name := some u.name
        user_email := some u.email }
  | none =>
      { success := false
        current_preference := none
        message := some "No user data found in database"
        user_name := none
        user_email := none }

/-- A rendering of the preference-read dict (Python interpolates the dict's
repr into step strings; the exact repr text is collaborator-facing only). -/
def prefReadRepr (r : PrefReadResult) : String :=
  if r.success then
    "\x7b'success': True, 'current_preference': '" ++ r.current_preference.getD "" ++ "'\x7d"
  else
    "\x7b'success': False, 'message': '" ++ r.message.getD "" ++ "'\x7d"

/-- Step 3 of `execute_mhmd_toggle_workflow` (lines 735-743): explicit
preference wins; otherwise `current_pref_result.get('current_preference',
'OPT_OUT')` is flipped (`OPT_IN` exactly when the read-back value is
`OPT_OUT`, which by the dict-`get` default also covers a failed read). -/
def computeTargetPref (input : MHMDWorkflowInput) (r : PrefReadResult) : String :=
  match input.preference with
  | some p => p.value
  | none =>
      if r.current_preference.getD "OPT_OUT" == "OPT_OUT" then "OPT_IN" else "OPT_OUT"

/-- The sentinel test of step 5 (line 758): `not user_email or user_email ==
'random'` — `None`, `""` and the literal `"random"` all trigger synthesis. -/
def emailIsSentinel (email : Option String) : Bool :=
  match email with
  | none => true
  | some e => e == "" || e == "random"

/-- Step 5 of `execute_mhmd_toggle_workflow` (lines 757-760): the email used
to fill the form; `randId` stands for the six random lowercase/digit
characters `random.choices` yields. -/
def computeUserEmail (email : Option String) (randId : String) : String :=
  if emailIsSentinel email then "testuser_" ++ randId ++ "@example.com"
  else email.getD ""

/-- A six-character lowercase/digit id, as `random.choices(string.ascii_lowercase
+ string.digits, k=6)` produces. -/
def isRandId (r : String) : Bool :=
  r.length == 6 && r.data.all (fun c => c.isLower || c.isDigit)

/-- First split of a character list at a character: `some (before, after)`
with the first occurrence removed, `none` when the character is absent. -/
def splitFirst (c : Char) : List Char → Option (List Char × List Char)
  | [] => none
  | x :: xs =>
      if x = c then some ([], xs)
      else (splitFirst c xs).map (fun p => (x :: p.1, p.2))

/-- A minimal well-formedness shape for an email address: one `@` splitting a
non-empty local part from a non-empty domain that contains a dot and no
further `@`. -/
def validEmailShape (s : String) : Bool :=
  match splitFirst '@' s.data with
  | some (loc, dom) =>
      !loc.isEmpty && !dom.isEmpty && dom.contains '.' && !dom.contains '@'
  | none => false

/-- `JSONDataService.update_user_data` (lines 76-103): each keyword argument
updates its stored field only when supplied non-`None`; the saved store and
the returned `UserData` (present only when name and email are both truthy
and the stored preference parses). -/
def update_user_data (u : StoredUser) (name : Option String)
    (email : Option String) (mhmd_preference : Option MHMDPreference) :
    StoredUser × Option UserData :=
  let u' : StoredUser :=
    { name := name.getD u.name
      email := email.getD u.email
      mhmd_preference := (mhmd_preference.map MHMDPreference.value).getD u.mhmd_preference }
  (u', if u'.name == "" || u'.email == "" then none
       else
         match parseMHMDPreference u'.mhmd_preference with
         | some p => some { name := u'.name, email := u'.email, mhmd_preference := p }
         | none => none)

/-- The primitive operations a workflow execution performs, in order: the
browser steps of `execute_mhmd_toggle_workflow`, the Swagger-UI steps of the
two API workflows, the artifact saves and the best-effort error captures. -/
inductive Prim
  | gotoPage
  | clickPrefs
  | readPref
  | toggleRadio
  | fillName
  | fillEmail
  | clickSave
  | waitSuccess
  | takeShot
  | readPrefFinal
  | saveShotFile
  | saveVerifFile
  | errorShot
  | errorSaveShotFile
  | errorSaveVerifFile
  | postCreateUser
  | swaggerGoto
  | swaggerUiWait
  | expandEndpoint
  | clickTryIt
  | clickExecute
  | waitResponse
  | readStatus
  | readBody
deriving DecidableEq, Fintype

/-- The workflow-result envelope: a field is `none` exactly when the Python
dict omits the key, and `some ""` when the key holds an empty string. -/
structure WorkflowResult where
  success : Bool
  message : String
  workflow_steps : List String
  screenshot : Option String
  screenshot_file_path : Option String
  final_preference : Option String
  api_response_status : Option String
  test_user_data : Option (String × String × String)
  database_verification : Option PrefReadResult
  verification_file_path : Option String
  error : Option String
deriving DecidableEq

/-- One workflow invocation's observable execution: the returned envelope,
the ordered trace of primitives performed, how many pages were opened and
closed, and how many record-creating HTTP POSTs were issued. -/
structure WorkflowExec where
  result : WorkflowResult
  prims : List Prim
  pagesOpened : Nat
  pagesClosed : Nat
  postsCreate : Nat
deriving DecidableEq

/-- Collaborator outcomes for the shared `except` handler: the best-effort
error screenshot (which may itself raise) and the two artifact-save paths
(`""` models a save helper that caught an internal error). -/
structure ErrEnv where
  errorScreenshotResult : Except String String
  errorSaveShotPath : String
  errorSaveVerifPath : String

/-- The `except Exception as e` handler shared (textually repeated) by the
three page-owning workflows: append the `❌` step, attempt one error
screenshot plus save while the page is open, always save an error
verification snapshot, return the failure envelope; the `finally` closes the
page when one was opened. -/
def failureExec (ee : ErrEnv) (msgPrefix okShotNote : String) (steps0 : List String)
    (prims0 : List Prim) (pageOpen : Bool) (posts : Nat) (errMsg : String) :
    WorkflowExec :=
  let steps1 := steps0 ++ ["❌ Error: " ++ errMsg]
  let steps2 :=
    if pageOpen then
      match ee.errorScreenshotResult with
      | .ok _ =>
          if ee.errorSaveShotPath == "" then steps1 ++ [okShotNote]
          else steps1 ++ [okShotNote]
            ++ ["💾 Error screenshot saved to: " ++ ee.errorSaveShotPath]
      | .error emsg => steps1 ++ ["📸 Screenshot failed on error: " ++ emsg]
    else steps1
  let shot : Option String :=
    if pageOpen then
      match ee.errorScreenshotResult with
      | .ok b64 => some b64
      | .error _ => none
    else none
  let shotPath :=
    if pageOpen then
      match ee.errorScreenshotResult with
      | .ok _ => if ee.errorSaveShotPath == "" then "" else ee.errorSaveShotPath
      | .error _ => ""
    else ""
  let prims1 :=
    if pageOpen then
      match ee.errorScreenshotResult with
      | .ok _ => prims0 ++ [.errorShot, .errorSaveShotFile]
      | .error _ => prims0 ++ [.errorShot]
    else prims0
  let stepsF :=
    if ee.errorSaveVerifPath == "" then steps2
    else steps2 ++ ["💾 Error verification saved to: " ++ ee.errorSaveVerifPath]
  { result :=
      { success := false
        message := msgPrefix ++ errMsg
        workflow_steps := stepsF
        screenshot := shot
        screenshot_file_path := some shotPath
        final_preference := none
        api_response_status := none
        test_user_data := none
        database_verification := none
        verification_file_path := some ee.errorSaveVerifPath
        error := some errMsg }
    prims := prims1 ++ [.errorSaveVerifFile]
    pagesOpened := if pageOpen then 1 else 0
    pagesClosed := if pageOpen then 1 else 0
    postsCreate := posts }

/-- Collaborator outcomes for one `execute_mhmd_toggle_workflow` run: the
initial browser-connected check, the raw `page.goto`, the five wrapped
Action Primitives (which never raise), the raw `take_screenshot`, the two
stored-user snapshots the data service would serve, the artifact-save
paths and the random id for email synthesis. -/
structure ToggleEnv where
  browserConnected : Bool
  gotoResult : Except String Unit
  prefsClick : ActionResult
  storeAtRead : StoredUser
  toggleResult : ActionResult
  fillNameResult : ActionResult
  fillEmailResult : ActionResult
  saveResult : ActionResult
  waitSuccessResult : ActionResult
  screenshotResult : Except String String
  storeAtVerify : StoredUser
  saveShotPath : String
  saveVerifPath : String
  randId : String
  err : ErrEnv

/-- `BrowserAutomationService.execute_mhmd_toggle_workflow` (lines 711-854),
translated step for step.  The fill-field primitive calls are performed but
their `ActionResult`s are discarded (the Python `await`s at lines 754 and
762 bind no name), and the wait-for-success result is logged but never
checked; the `prefsClick`, `toggleRadio` and `clickSave` results are the
only primitive results that abort via `raise`. -/
def execute_mhmd_toggle_workflow (env : ToggleEnv) (input : MHMDWorkflowInput)
    (base_url : String) : WorkflowExec :=
  let pfx := "MHMD preference toggle workflow failed: "
  let note := "📸 Screenshot captured on error"
  if !env.browserConnected then
    failureExec env.err pfx note [] [] false 0
      "Browser not initialized or closed. Please ensure the service is running."
  else
    match env.gotoResult with
    | .error e => failureExec env.err pfx note [] [.gotoPage] true 0 e
    | .ok _ =>
      let steps := ["📍 Navigated to: " ++ base_url,
                    "🔗 Preferences click: " ++ env.prefsClick.message]
      if !env.prefsClick.success then
        failureExec env.err pfx note steps [.gotoPage, .clickPrefs] true 0
          "Failed to click Preferences link"
      else
        let readR := get_current_mhmd_preference env.storeAtRead
        let new_pref := computeTargetPref input readR
        let stepsP :=
          match input.preference with
          | some p => steps ++ ["🎯 Target preference specified: " ++ p.value]
          | none => steps ++ ["🔄 No preference specified, toggling to: " ++ new_pref]
        let primsP : List Prim :=
          match input.preference with
          | some _ => [.gotoPage, .clickPrefs]
          | none => [.gotoPage, .clickPrefs, .readPref]
        let stepsT := stepsP ++ ["🎛️ Toggle result: " ++ env.toggleResult.message]
        let primsT := primsP ++ [Prim.toggleRadio]
        if !env.toggleResult.success then
          failureExec env.err pfx note stepsT primsT true 0
            "Failed to toggle MHMD preference"
        else
          let user_name := pyOrStr input.name "Test User"
          let user_email := computeUserEmail input.email env.randId
          let stepsF := stepsT
            ++ ["📝 Filled name field with: " ++ user_name]
            ++ (if emailIsSentinel input.email then
                  ["📧 Generated random email: " ++ user_email] else [])
            ++ ["📧 Filled email field with: " ++ user_email]
          let primsF := primsT ++ [Prim.fillName, .fillEmail]
          let stepsS := stepsF ++ ["💾 Save result: " ++ env.saveResult.message]
          let primsS := primsF ++ [Prim.clickSave]
          if !env.saveResult.success then
            failureExec env.err pfx note stepsS primsS true 0
              "Failed to click save button"
          else
            let stepsW := stepsS ++ ["✅ Success message: " ++ env.waitSuccessResult.message]
            let primsW := primsS ++ [Prim.waitSuccess]
            match env.screenshotResult with
            | .error e =>
                failureExec env.err pfx note stepsW (primsW ++ [.takeShot]) true 0 e
            | .ok b64 =>
              let finalR := get_current_mhmd_preference env.storeAtVerify
              let steps9 := stepsW ++ ["📸 Screenshot captured",
                                       "🗄️ Final DB state: " ++ prefReadRepr finalR]
              let prims9 := primsW ++ [Prim.takeShot, .readPrefFinal]
              let steps10 :=
                if b64 == "" then steps9
                else if env.saveShotPath == "" then
                  steps9 ++ ["⚠️ Failed to save screenshot to file"]
                else steps9 ++ ["💾 Screenshot saved to: " ++ env.saveShotPath]
              let shotPath :=
                if b64 == "" then ""
                else if env.saveShotPath == "" then "" else env.saveShotPath
              let prims10 :=
                if b64 == "" then prims9 else prims9 ++ [Prim.saveShotFile]
              let stepsV :=
                if env.saveVerifPath == "" then
                  steps10 ++ ["⚠️ Failed to save verification data to file"]
                else
                  steps10 ++ ["💾 Verification data saved to: " ++ env.saveVerifPath]
              { result :=
                  { success := true
                    message := "MHMD preference toggle workflow completed successfully"
                    workflow_steps := stepsV
                    screenshot := some b64
                    screenshot_file_path := some shotPath
                    final_preference := some new_pref
                    api_response_status := none
                    test_user_data := none
                    database_verification := some finalR
                    verification_file_path := some env.saveVerifPath
                    error := none }
                prims := prims10 ++ [Prim.saveVerifFile]
                pagesOpened := 1
                pagesClosed := 1
                postsCreate := 0 }

/-- Collaborator outcomes for one `execute_swagger_ui_only_workflow` run: the
raw page operations (each may raise into the outer `except`), the inner
body-read whose failure is swallowed, the stored-user snapshot for the final
DB verification and the artifact-save paths. -/
structure SwaggerEnv where
  browserConnected : Bool
  gotoResult : Except String Unit
  uiLoad : Except String Unit
  endpointClick : Except String Unit
  tryItClick : Except String Unit
  executeClick : Except String Unit
  responseWait : Except String Unit
  statusRead : Except String String
  bodyRead : Except String String
  screenshotResult : Except String String
  storeAtVerify : StoredUser
  saveShotPath : String
  saveVerifPath : String
  err : ErrEnv

/-- `BrowserAutomationService.execute_swagger_ui_only_workflow` (lines
432-564): navigate to the docs page, expand the GET endpoint, execute it,
scrape status/body, screenshot, re-verify the database, save artifacts.  It
issues no record-creating POST. -/
def execute_swagger_ui_only_workflow (env : SwaggerEnv) (base_url : String) :
    WorkflowExec :=
  let pfx := "Swagger UI only workflow failed: "
  let note := "📸 Error screenshot captured"
  if !env.browserConnected then
    failureExec env.err pfx note [] [] false 0
      "Browser not initialized or closed. Please ensure the service is running."
  else
    match env.gotoResult with
    | .error e => failureExec env.err pfx note [] [.swaggerGoto] true 0 e
    | .ok _ =>
      let steps1 := ["📍 Navigated to Swagger UI: " ++ base_url ++ "/docs"]
      match env.uiLoad with
      | .error e =>
          failureExec env.err pfx note steps1 [.swaggerGoto, .swaggerUiWait] true 0 e
      | .ok _ =>
        let steps2 := steps1 ++ ["🔄 Swagger UI loaded successfully"]
        match env.endpointClick with
        | .error e =>
            failureExec env.err pfx note steps2
              [.swaggerGoto, .swaggerUiWait, .expandEndpoint] true 0 e
        | .ok _ =>
          let steps3 := steps2 ++ ["🔍 Expanded GET /api/user endpoint"]
          match env.tryItClick with
          | .error e =>
              failureExec env.err pfx note steps3
                [.swaggerGoto, .swaggerUiWait, .expandEndpoint, .clickTryIt] true 0 e
          | .ok _ =>
            let steps4 := steps3 ++ ["🎯 Clicked 'Try it out' button"]
            match env.executeClick with
            | .error e =>
                failureExec env.err pfx note steps4
                  [.swaggerGoto, .swaggerUiWait, .expandEndpoint, .clickTryIt,
                   .clickExecute] true 0 e
            | .ok _ =>
              let steps5 := steps4 ++ ["⚡ Executed GET /api/user API call"]
              match env.responseWait with
              | .error e =>
                  failureExec env.err pfx note steps5
                    [.swaggerGoto, .swaggerUiWait, .expandEndpoint, .clickTryIt,
                     .clickExecute, .waitResponse] true 0 e
              | .ok _ =>
                match env.statusRead with
                | .error e =>
                    failureExec env.err pfx note steps5
                      [.swaggerGoto, .swaggerUiWait, .expandEndpoint, .clickTryIt,
                       .clickExecute, .waitResponse, .readStatus] true 0 e
                | .ok response_code =>
                  let steps6 := steps5 ++ ["📊 API Response Status: " ++ response_code]
                  let steps7 :=
                    match env.bodyRead with
                    | .ok body =>
                        steps6 ++ ["📄 Response Body Preview: " ++ body.take 200 ++ "..."]
                    | .error _ =>
                        steps6 ++ ["📄 Response body captured (details in screenshot)"]
                  let prims7 : List Prim :=
                    [.swaggerGoto, .swaggerUiWait, .expandEndpoint, .clickTryIt,
                     .clickExecute, .waitResponse, .readStatus, .readBody]
                  match env.screenshotResult with
                  | .error e =>
                      failureExec env.err pfx note steps7 (prims7 ++ [.takeShot]) true 0 e
                  | .ok b64 =>
                    let finalR := get_current_mhmd_preference env.storeAtVerify
                    let steps8 := steps7
                      ++ ["📸 Screenshot captured of Swagger UI API test",
                          "🗄️ Final DB verification: " ++ prefReadRepr finalR]
                    let prims8 := prims7 ++ [Prim.takeShot, .readPrefFinal]
                    let steps9 :=
                      if b64 == "" then steps8
                      else if env.saveShotPath == "" then steps8
                      else steps8 ++ ["💾 Screenshot saved to: " ++ env.saveShotPath]
                    let shotPath :=
                      if b64 == "" then ""
                      else if env.saveShotPath == "" then "" else env.saveShotPath
                    let prims9 :=
                      if b64 == "" then prims8 else prims8 ++ [Prim.saveShotFile]
                    let stepsV :=
                      if env.saveVerifPath == "" then steps9
                      else
                        steps9 ++ ["💾 Verification data saved to: " ++ env.saveVerifPath]
                    { result :=
                        { success := true
                          message := "Swagger UI only workflow completed successfully"
                          workflow_steps := stepsV
                          screenshot := some b64
                          screenshot_file_path := some shotPath
                          final_preference := none
                          api_response_status := some response_code
                          test_user_data := none
                          database_verification := some finalR
                          verification_file_path := some env.saveVerifPath
                          error := none }
                      prims := prims9 ++ [Prim.saveVerifFile]
                      pagesOpened := 1
                      pagesClosed := 1
                      postsCreate := 0 }

/-- Collaborator outcomes for `execute_swagger_api_test_workflow`: the
Swagger-UI outcomes plus the side HTTP POST that creates the test record
(`postStatus` is the HTTP status, and the three `post*` fields are the
created record the endpoint reports back on 200). -/
structure ApiTestEnv extends SwaggerEnv where
  postStatus : Nat
  postName : String
  postEmail : String
  postPref : String

/-- `BrowserAutomationService.execute_swagger_api_test_workflow` (lines
566-709): identical to the Swagger-UI-only workflow except that it first
creates a test record via `POST {base_url}/api/user/test` (raising on a
non-200 status) and carries the created record in its success envelope. -/
def execute_swagger_api_test_workflow (env : ApiTestEnv) (base_url : String) :
    WorkflowExec :=
  let pfx := "Swagger UI API test workflow failed: "
  let note := "📸 Error screenshot captured"
  if !env.browserConnected then
    failureExec env.err pfx note [] [] false 0
      "Browser not initialized or closed. Please ensure the service is running."
  else
    if env.postStatus ≠ 200 then
      failureExec env.err pfx note [] [.postCreateUser] true 1
        ("Failed to create test user: HTTP " ++ toString env.postStatus)
    else
      let steps0 := ["✅ Test user created: " ++ env.postName ++ " with "
                     ++ env.postPref ++ " preference"]
      match env.gotoResult with
      | .error e =>
          failureExec env.err pfx note steps0 [.postCreateUser, .swaggerGoto] true 1 e
      | .ok _ =>
        let steps1 := steps0 ++ ["📍 Navigated to Swagger UI: " ++ base_url ++ "/docs"]
        match env.uiLoad with
        | .error e =>
            failureExec env.err pfx note steps1
              [.postCreateUser, .swaggerGoto, .swaggerUiWait] true 1 e
        | .ok _ =>
          let steps2 := steps1 ++ ["🔄 Swagger UI loaded successfully"]
          match env.endpointClick with
          | .error e =>
              failureExec env.err pfx note steps2
                [.postCreateUser, .swaggerGoto, .swaggerUiWait, .expandEndpoint] true 1 e
          | .ok _ =>
            let steps3 := steps2 ++ ["🔍 Expanded GET /api/user endpoint"]
            match env.tryItClick with
            | .error e =>
                failureExec env.err pfx note steps3
                  [.postCreateUser, .swaggerGoto, .swaggerUiWait, .expandEndpoint,
                   .clickTryIt] true 1 e
            | .ok _ =>
              let steps4 := steps3 ++ ["🎯 Clicked 'Try it out' button"]
              match env.executeClick with
              | .error e =>
                  failureExec env.err pfx note steps4
                    [.postCreateUser, .swaggerGoto, .swaggerUiWait, .expandEndpoint,
                     .clickTryIt, .clickExecute] true 1 e
              | .ok _ =>
                let steps5 := steps4 ++ ["⚡ Executed GET /api/user API call"]
                match env.responseWait with
                | .error e =>
                    failureExec env.err pfx note steps5
                      [.postCreateUser, .swaggerGoto, .swaggerUiWait, .expandEndpoint,
                       .clickTryIt, .clickExecute, .waitResponse] true 1 e
                | .ok _ =>
                  match env.statusRead with
                  | .error e =>
                      failureExec env.err pfx note steps5
                        [.postCreateUser, .swaggerGoto, .swaggerUiWait, .expandEndpoint,
                         .clickTryIt, .clickExecute, .waitResponse, .readStatus] true 1 e
                  | .ok response_code =>
                    let steps6 := steps5 ++ ["📊 API Response Status: " ++ response_code]
                    let steps7 :=
                      match env.bodyRead with
                      | .ok body =>
                          steps6 ++ ["📄 Response Body Preview: " ++ body.take 200 ++ "..."]
                      | .error _ =>
                          steps6 ++ ["📄 Response body captured (details in screenshot)"]
                    let prims7 : List Prim :=
                      [.postCreateUser, .swaggerGoto, .swaggerUiWait, .expandEndpoint,
                       .clickTryIt, .clickExecute, .waitResponse, .readStatus, .readBody]
                    match env.screenshotResult with
                    | .error e =>
                        failureExec env.err pfx note steps7 (prims7 ++ [.takeShot]) true 1 e
                    | .ok b64 =>
                      let finalR := get_current_mhmd_preference env.storeAtVerify
                      let steps8 := steps7
                        ++ ["📸 Screenshot captured of Swagger UI API test",
                            "🗄️ Final DB verification: " ++ prefReadRepr finalR]
                      let prims8 := prims7 ++ [Prim.takeShot, .readPrefFinal]
                      let steps9 :=
                        if b64 == "" then steps8
                        else if env.saveShotPath == "" then steps8
                        else steps8 ++ ["💾 Screenshot saved to: " ++ env.saveShotPath]
                      let shotPath :=
                        if b64 == "" then ""
                        else if env.saveShotPath == "" then "" else env.saveShotPath
                      let prims9 :=
                        if b64 == "" then prims8 else prims8 ++ [Prim.saveShotFile]
                      let stepsV :=
                        if env.saveVerifPath == "" then steps9
                        else
                          steps9 ++ ["💾 Verification data saved to: " ++ env.saveVerifPath]
                      { result :=
                          { success := true
                            message := "Swagger UI API test workflow completed successfully"
                            workflow_steps := stepsV
                            screenshot := some b64
                            screenshot_file_path := some shotPath
                            final_preference := none
                            api_response_status := some response_code
                            test_user_data := some (env.postName, env.postEmail, env.postPref)
                            database_verification := some finalR
                            verification_file_path := some env.saveVerifPath
                            error := none }
                        prims := prims9 ++ [Prim.saveVerifFile]
                        pagesOpened := 1
                        pagesClosed := 1
                        postsCreate := 1 }

/-- The combined workflow's result envelope.  `screenshots` carries
`(type, base64, description)` entries; fields are `none` when the Python
failure dict omits the key (`screenshot_files`, `test_user_data`,
`mhmd_result`, `swagger_result` and `verification_file_path` appear only in
the success envelope). -/
structure CombinedResult where
  success : Bool
  message : String
  workflow_steps : List String
  screenshots : List (String × String × String)
  screenshot_files : Option (List String)
  test_user_data : Option (String × String × String)
  mhmd_result : Option WorkflowResult
  swagger_result : Option WorkflowResult
  verification_file_path : Option String
  error : Option String
deriving DecidableEq

/-- One combined-workflow invocation: its envelope, whether the second
(Swagger) sub-workflow was started at all, and the page/POST accounting
summed over whatever sub-workflows ran.  The combined function itself never
assigns its local `page`, so it opens no page of its own and its error
handler can capture no screenshot. -/
structure CombinedExec where
  result : CombinedResult
  swaggerInvoked : Bool
  pagesOpened : Nat
  pagesClosed : Nat
  postsCreate : Nat
deriving DecidableEq

/-- Collaborator outcomes for one combined run: the shared browser flag, the
two sub-workflow environments, the random test-data draws (lines 297-319)
and the combined artifact-save paths. -/
structure CombinedEnv where
  browserConnected : Bool
  toggleEnv : ToggleEnv
  swaggerEnv : SwaggerEnv
  randId1 : String
  randId2 : String
  randPref : MHMDPreference
  combinedShotPaths : List String
  saveVerifPath : String

/-- Lines 296-319: the workflow input actually passed to the toggle
sub-workflow.  With no input, one random id serves both name and email and a
random preference is drawn; with an input, each falsy field is filled from
its own fresh random draw. -/
def combinedEffInput (env : CombinedEnv) : Option MHMDWorkflowInput → MHMDWorkflowInput
  | none =>
      { name := some ("Test User " ++ env.randId1)
        email := some ("testuser_" ++ env.randId1 ++ "@example.com")
        preference := some env.randPref }
  | some wi =>
      { name := some (pyOrStr wi.name ("Test User " ++ env.randId1))
        email := some (pyOrStr wi.email ("testuser_" ++ env.randId2 ++ "@example.com"))
        preference := some (wi.preference.getD env.randPref) }

/-- The combined workflow's `except` branch (lines 404-427): its local `page`
is never assigned, so no error screenshot is possible and the failure
envelope carries an empty `screenshots` list and only the keys listed. -/
def combinedFailure (steps : List String) (errMsg : String) (swInv : Bool)
    (opened closed posts : Nat) : CombinedExec :=
  { result :=
      { success := false
        message := "Combined workflow failed: " ++ errMsg
        workflow_steps := steps ++ ["❌ Combined workflow error: " ++ errMsg]
        screenshots := []
        screenshot_files := none
        test_user_data := none
        mhmd_result := none
        swagger_result := none
        verification_file_path := none
        error := some errMsg }
    swaggerInvoked := swInv
    pagesOpened := opened
    pagesClosed := closed
    postsCreate := posts }

/-- The screenshot-save loop of the combined success path (lines 360-368):
each captured screenshot is saved; a save that yields a truthy path adds the
file and a step note. -/
def combinedSaveShots (shots : List (String × String × String))
    (paths : List String) : List String × List String :=
  shots.enum.foldl
    (fun acc p =>
      let path := paths.getD p.1 ""
      if path == "" then acc
      else (acc.1 ++ [path], acc.2 ++ ["💾 " ++ p.2.2.2 ++ " saved to: " ++ path]))
    ([], [])

/-- `BrowserAutomationService.execute_combined_mhmd_swagger_workflow` (lines
283-430): run the toggle sub-workflow on the (defaulted) input, echo its
steps, raise if it failed; only then run the Swagger-UI-only sub-workflow,
echo its steps, raise if it failed; then save the accumulated screenshots
and the combined verification snapshot and return the success envelope. -/
def execute_combined_mhmd_swagger_workflow (env : CombinedEnv)
    (workflow_input : Option MHMDWorkflowInput)
    (base_url_frontend base_url_backend : String) : CombinedExec :=
  if !env.browserConnected then
    combinedFailure [] "Browser not initialized or closed. Please ensure the service is running."
      false 0 0 0
  else
    let steps0 := ["🔄 Starting MHMD workflow to create test user..."]
    let wi := combinedEffInput env workflow_input
    let tExec := execute_mhmd_toggle_workflow
      { env.toggleEnv with browserConnected := true } wi base_url_frontend
    let mhmdR := tExec.result
    let steps1 := steps0 ++ mhmdR.workflow_steps.map (fun s => "📋 MHMD Workflow: " ++ s)
    let mhmdShot := truthyOS mhmdR.screenshot
    let shots1 : List (String × String × String) :=
      if mhmdShot then
        [("mhmd_preferences", mhmdR.screenshot.getD "", "MHMD User Preferences Page")]
      else []
    let steps2 := steps1 ++ (if mhmdShot then ["📸 MHMD preferences screenshot captured"] else [])
    if !mhmdR.success then
      combinedFailure steps2 ("MHMD workflow failed: " ++ mhmdR.message) false
        tExec.pagesOpened tExec.pagesClosed tExec.postsCreate
    else
      let steps3 := steps2 ++ ["🔄 Starting Swagger UI API test workflow..."]
      let sExec := execute_swagger_ui_only_workflow
        { env.swaggerEnv with browserConnected := true } base_url_backend
      let swR := sExec.result
      let steps4 := steps3 ++ swR.workflow_steps.map (fun s => "📋 Swagger Workflow: " ++ s)
      let swShot := truthyOS swR.screenshot
      let shots2 := shots1 ++
        (if swShot then [("swagger_ui", swR.screenshot.getD "", "Swagger UI API Response")]
         else [])
      let steps5 := steps4 ++ (if swShot then ["📸 Swagger UI response screenshot captured"] else [])
      if !swR.success then
        combinedFailure steps5 ("Swagger workflow failed: " ++ swR.message) true
          (tExec.pagesOpened + sExec.pagesOpened) (tExec.pagesClosed + sExec.pagesClosed)
          (tExec.postsCreate + sExec.postsCreate)
      else
        let saved := combinedSaveShots shots2 env.combinedShotPaths
        let steps6 := steps5 ++ saved.2
        let steps7 :=
          if env.saveVerifPath == "" then steps6
          else steps6 ++ ["📄 Combined verification data saved to: " ++ env.saveVerifPath]
        { result :=
            { success := true
              message := "Combined MHMD + Swagger workflow completed successfully"
              workflow_steps := steps7
              screenshots := shots2
              screenshot_files := some saved.1
              test_user_data := some (wi.name.getD "", wi.email.getD "",
                (wi.preference.map MHMDPreference.value).getD "")
              mhmd_result := some mhmdR
              swagger_result := some swR
              verification_file_path := some env.saveVerifPath
              error := none }
          swaggerInvoked := true
          pagesOpened := tExec.pagesOpened + sExec.pagesOpened
          pagesClosed := tExec.pagesClosed + sExec.pagesClosed
          postsCreate := tExec.postsCreate + sExec.postsCreate }

/-- JSON values as `json.loads` yields them.  Numbers are modelled as
integers only (no workflow field is numeric; a float in the model reply
simply fails to parse). -/
inductive JVal
  | null
  | boolV (b : Bool)
  | num (n : Int)
  | str (s : String)
  | arr (xs : List JVal)
  | obj (fields : List (String × JVal))

/-- JSON whitespace. -/
def jsonWs (c : Char) : Bool := c == ' ' || c == '\t' || c == '\n' || c == '\r'

/-- Drop leading JSON whitespace. -/
def skipWs : List Char → List Char
  | [] => []
  | c :: cs => if jsonWs c then skipWs cs else c :: cs

/-- One hex digit's value. -/
def hexDigitVal (c : Char) : Option Nat :=
  if c.isDigit then some (c.toNat - 48)
  else if 'a' ≤ c && c ≤ 'f' then some (c.toNat - 87)
  else if 'A' ≤ c && c ≤ 'F' then some (c.toNat - 55)
  else none

/-- The body of a JSON string literal, after the opening quote. -/
def parseJStringAux : List Char → List Char → Option (String × List Char)
  | [], _ => none
  | '"' :: cs, acc => some (String.mk acc.reverse, cs)
  | '\\' :: '"' :: cs, acc => parseJStringAux cs ('"' :: acc)
  | '\\' :: '\\' :: cs, acc => parseJStringAux cs ('\\' :: acc)
  | '\\' :: '/' :: cs, acc => parseJStringAux cs ('/' :: acc)
  | '\\' :: 'n' :: cs, acc => parseJStringAux cs ('\n' :: acc)
  | '\\' :: 't' :: cs, acc => parseJStringAux cs ('\t' :: acc)
  | '\\' :: 'r' :: cs, acc => parseJStringAux cs ('\r' :: acc)
  | '\\' :: 'b' :: cs, acc => parseJStringAux cs (Char.ofNat 8 :: acc)
  | '\\' :: 'f' :: cs, acc => parseJStringAux cs (Char.ofNat 12 :: acc)
  | '\\' :: 'u' :: h1 :: h2 :: h3 :: h4 :: cs, acc =>
      match hexDigitVal h1, hexDigitVal h2, hexDigitVal h3, hexDigitVal h4 with
      | some a, some b, some c, some d =>
          parseJStringAux cs (Char.ofNat (a * 4096 + b * 256 + c * 16 + d) :: acc)
      | _, _, _, _ => none
  | '\\' :: _, _ => none
  | c :: cs, acc => parseJStringAux cs (c :: acc)

/-- Longest leading run of decimal digits. -/
def takeDigits : List Char → List Char × List Char
  | [] => ([], [])
  | c :: cs =>
      if c.isDigit then
        let p := takeDigits cs
        (c :: p.1, p.2)
      else ([], c :: cs)

/-- Decimal digits to a natural number. -/
def digitsToNat (ds : List Char) : Nat :=
  ds.foldl (fun a c => a * 10 + (c.toNat - 48)) 0

/-- A JSON integer (optional minus then digits). -/
def parseJNum : List Char → Option (Int × List Char)
  | '-' :: rest =>
      let p := takeDigits rest
      if p.1.isEmpty then none else some (-(digitsToNat p.1 : Int), p.2)
  | cs =>
      let p := takeDigits cs
      if p.1.isEmpty then none else some ((digitsToNat p.1 : Int), p.2)

mutual

/-- A JSON value, fuel-bounded recursive descent. -/
def parseJVal : Nat → List Char → Option (JVal × List Char)
  | 0, _ => none
  | Nat.succ fuel, cs =>
      match skipWs cs with
      | [] => none
      | '"' :: rest => (parseJStringAux rest []).map (fun p => (JVal.str p.1, p.2))
      | '{' :: rest =>
          match skipWs rest with
          | '}' :: r2 => some (JVal.obj [], r2)
          | r => (parseJMembers fuel r []).map (fun p => (JVal.obj p.1, p.2))
      | '[' :: rest =>
          match skipWs rest with
          | ']' :: r2 => some (JVal.arr [], r2)
          | r => (parseJElems fuel r []).map (fun p => (JVal.arr p.1, p.2))
      | 't' :: 'r' :: 'u' :: 'e' :: rest => some (JVal.boolV true, rest)
      | 'f' :: 'a' :: 'l' :: 's' :: 'e' :: rest => some (JVal.boolV false, rest)
      | 'n' :: 'u' :: 'l' :: 'l' :: rest => some (JVal.null, rest)
      | rest => (parseJNum rest).map (fun p => (JVal.num p.1, p.2))

/-- Object members after the opening brace (at least one). -/
def parseJMembers : Nat → List Char → List (String × JVal) →
    Option (List (String × JVal) × List Char)
  | 0, _, _ => none
  | Nat.succ fuel, cs, acc =>
      match skipWs cs with
      | '"' :: rest =>
          match parseJStringAux rest [] with
          | none => none
          | some (k, r1) =>
              match skipWs r1 with
              | ':' :: r2 =>
                  match parseJVal fuel r2 with
                  | none => none
                  | some (v, r3) =>
                      match skipWs r3 with
                      | ',' :: r4 => parseJMembers fuel r4 (acc ++ [(k, v)])
                      | '}' :: r4 => some (acc ++ [(k, v)], r4)
                      | _ => none
              | _ => none
      | _ => none

/-- Array elements after the opening bracket (at least one). -/
def parseJElems : Nat → List Char → List JVal → Option (List JVal × List Char)
  | 0, _, _ => none
  | Nat.succ fuel, cs, acc =>
      match parseJVal fuel cs with
      | none => none
      | some (v, r1) =>
          match skipWs r1 with
          | ',' :: r2 => parseJElems fuel r2 (acc ++ [v])
          | ']' :: r2 => some (acc ++ [v], r2)
          | _ => none

end

/-- `json.loads`: parse one value and require only whitespace to remain. -/
def jsonLoads (s : String) : Option JVal :=
  match parseJVal (s.length + 1) s.data with
  | some (v, rest) => if (skipWs rest).isEmpty then some v else none
  | none => none

/-- Python-dict lookup over parsed members (a duplicated key keeps its last
value, as `json.loads` does). -/
def jlookup (fields : List (String × JVal)) (k : String) : Option JVal :=
  (fields.filter (fun p => p.1 == k)).getLast?.map (fun p => p.2)

/-- Python truthiness of a JSON value. -/
def jsonTruthy : JVal → Bool
  | .null => false
  | .boolV b => b
  | .num n => !(n == 0)
  | .str s => !(s == "")
  | .arr xs => !xs.isEmpty
  | .obj fs => !fs.isEmpty

/-- `re.search(r'\x7b[^\x7b\x7d]*\x7d', content)` (line 907): the scanner
state is `some acc` when a `\x7b` has been seen with no brace after it; the
first `\x7d` then closes the leftmost match of the pattern, which cannot
span nested braces. -/
def extractJsonAux : List Char → Option (List Char) → Option String
  | [], _ => none
  | c :: cs, pending =>
      if c = '{' then extractJsonAux cs (some [c])
      else if c = '}' then
        match pending with
        | some acc => some (String.mk ((c :: acc).reverse))
        | none => extractJsonAux cs none
      else extractJsonAux cs (pending.map (fun a => c :: a))

/-- The brace-delimited substring the classifier extracts (line 907-909);
`none` when the regex finds no match, in which case the stripped reply is
parsed as-is. -/
def extractJson (s : String) : Option String := extractJsonAux s.data none

/-- Modelled from the spec: "locate the first balanced brace-delimited
substring inside the raw reply" — the substring from the first opening brace
to its matching closing brace, counting nesting depth.  Stated only to
compare with `extractJson`, the code's actual regex. -/
def specBalancedAux : List Char → Nat → List Char → Option String
  | [], _, _ => none
  | c :: cs, 0, _ =>
      if c = '{' then specBalancedAux cs 1 [c] else specBalancedAux cs 0 []
  | c :: cs, Nat.succ depth, acc =>
      if c = '{' then specBalancedAux cs (depth + 2) (c :: acc)
      else if c = '}' then
        if depth = 0 then some (String.mk ((c :: acc).reverse))
        else specBalancedAux cs depth (c :: acc)
      else specBalancedAux cs (depth + 1) (c :: acc)

/-- Modelled from the spec: the first balanced brace-delimited substring. -/
def specFirstBalancedBraces (s : String) : Option String := specBalancedAux s.data 0 []

/-- A string containing no brace characters. -/
def noBraces (s : String) : Bool :=
  s.data.all (fun c => !(c == '{') && !(c == '}'))

/-- Python `workflow_type == "..."`: true only for exactly that string. -/
def jvalEqStr : JVal → String → Bool
  | .str s, t => s == t
  | _, _ => false

/-- True when the parsed value is a mapping (`isinstance(parsed_data, dict)`). -/
def JVal.isObj : JVal → Bool
  | .obj _ => true
  | _ => false

/-- A `parsed_data.get(...)` field fed to `MHMDWorkflowInput`: `null`/missing
becomes `None`; a string passes; any other value fails pydantic validation
(a `ValueError`, caught by the same `except` as a JSON parse error). -/
def jFieldToOptStr : Option JVal → Except String (Option String)
  | none => .ok none
  | some .null => .ok none
  | some (.str s) => .ok (some s)
  | some _ => .error "validation error for MHMDWorkflowInput"

/-- `MHMDPreference(parsed_data["preference"]) if parsed_data.get("preference")
else None`: a falsy value becomes `None`; a truthy member string parses; any
other truthy value raises `ValueError`. -/
def jFieldToPref : Option JVal → Except String (Option MHMDPreference)
  | none => .ok none
  | some j =>
      if !jsonTruthy j then .ok none
      else
        match j with
        | .str s =>
            match parseMHMDPreference s with
            | some p => .ok (some p)
            | none => .error ("'" ++ s ++ "' is not a valid MHMDPreference")
        | _ => .error "not a valid MHMDPreference"

/-- Which workflow `process_natural_language_command` dispatched into. -/
inductive Dispatched
  | mhmdOnlyW
  | swaggerOnlyW
  | combinedW
deriving DecidableEq

/-- What `process_natural_language_command` returns: the classification
failure dict — which carries no `workflow_steps` key — or the envelope of
whichever workflow ran. -/
inductive NLResult
  | parseFailure (message : String) (error : String) (raw_ai_response : String)
  | workflow (r : WorkflowResult)
  | combinedWf (r : CombinedResult)
deriving DecidableEq

/-- The envelope's `success` field. -/
def NLResult.success : NLResult → Bool
  | .parseFailure _ _ _ => false
  | .workflow r => r.success
  | .combinedWf r => r.success

/-- The envelope's `workflow_steps` key: absent (`none`) on the
classification-failure dict. -/
def NLResult.workflow_steps : NLResult → Option (List String)
  | .parseFailure _ _ _ => none
  | .workflow r => some r.workflow_steps
  | .combinedWf r => some r.workflow_steps

/-- The envelope's `raw_ai_response` key: present only on the
classification-failure dict. -/
def NLResult.raw_ai_response : NLResult → Option String
  | .parseFailure _ _ raw => some raw
  | _ => none

/-- The envelope's `message` field. -/
def NLResult.message : NLResult → String
  | .parseFailure m _ _ => m
  | .workflow r => r.message
  | .combinedWf r => r.message

/-- One natural-language invocation: envelope, which workflow variant was
dispatched (none on classification failure) and its resource accounting. -/
structure NLExec where
  result : NLResult
  dispatched : Option Dispatched
  pagesOpened : Nat
  pagesClosed : Nat
  postsCreate : Nat
deriving DecidableEq

/-- Collaborator outcomes for one natural-language invocation: the raw model
reply and the environments of whichever workflow the classification may
dispatch into. -/
structure NLEnv where
  rawReply : String
  toggleEnv : ToggleEnv
  combinedEnv : CombinedEnv
  apiTestEnv : ApiTestEnv

/-- The `except (json.JSONDecodeError, ValueError, KeyError)` branch (lines
953-963): a failure dict whose message and `raw_ai_response` carry the raw
model reply verbatim, with no `workflow_steps` key and no retry of the
model call. -/
def nlParseFailure (raw parseErr : String) : NLExec :=
  { result := .parseFailure
      ("I couldn't parse the AI response properly. The AI returned: '" ++ raw
       ++ "'. This seems to be a JSON parsing issue. Please try a simpler command like 'Visit preferences and take screenshot'")
      ("JSON parsing failed: " ++ parseErr)
      raw
    dispatched := none
    pagesOpened := 0
    pagesClosed := 0
    postsCreate := 0 }

/-- `BrowserAutomationService.process_natural_language_command` (lines
856-971): strip the reply, extract the first flat brace-delimited substring
when the regex finds one, `json.loads` it, require a mapping, read
`workflow_type` (defaulting to `mhmd_only` only when the key is missing) and
dispatch into the matching workflow; any parse or validation error
short-circuits into the failure dict.  The model reply is obtained once from
the environment — the code performs a single `llm.ainvoke` with no retry. -/
def process_natural_language_command (env : NLEnv) (command : String)
    (base_url : String) : NLExec :=
  let raw := env.rawReply
  let content0 := pyStrip raw
  let content := (extractJson content0).getD content0
  match jsonLoads content with
  | none => nlParseFailure raw "Expecting value"
  | some v =>
      match v with
      | .obj fields =>
          let wt := (jlookup fields "workflow_type").getD (JVal.str "mhmd_only")
          if jvalEqStr wt "combined" then
            match jFieldToOptStr (jlookup fields "name"),
                  jFieldToOptStr (jlookup fields "email"),
                  jFieldToPref (jlookup fields "preference") with
            | .ok n, .ok e, .ok p =>
                let ex := execute_combined_mhmd_swagger_workflow env.combinedEnv
                  (some { name := n, email := e, preference := p })
                  base_url "http://localhost:8000"
                { result := .combinedWf ex.result
                  dispatched := some .combinedW
                  pagesOpened := ex.pagesOpened
                  pagesClosed := ex.pagesClosed
                  postsCreate := ex.postsCreate }
            | .error m, _, _ => nlParseFailure raw m
            | _, .error m, _ => nlParseFailure raw m
            | _, _, .error m => nlParseFailure raw m
          else if jvalEqStr wt "swagger_only" then
            let ex := execute_swagger_api_test_workflow env.apiTestEnv
              "http://localhost:8000"
            { result := .workflow ex.result
              dispatched := some .swaggerOnlyW
              pagesOpened := ex.pagesOpened
              pagesClosed := ex.pagesClosed
              postsCreate := ex.postsCreate }
          else
            match jFieldToOptStr (jlookup fields "name"),
                  jFieldToOptStr (jlookup fields "email"),
                  jFieldToPref (jlookup fields "preference") with
            | .ok n, .ok e, .ok p =>
                let ex := execute_mhmd_toggle_workflow env.toggleEnv
                  { name := n, email := e, preference := p } base_url
                { result := .workflow ex.result
                  dispatched := some .mhmdOnlyW
                  pagesOpened := ex.pagesOpened
                  pagesClosed := ex.pagesClosed
                  postsCreate := ex.postsCreate }
            | .error m, _, _ => nlParseFailure raw m
            | _, .error m, _ => nlParseFailure raw m
            | _, _, .error m => nlParseFailure raw m
      | _ => nlParseFailure raw "Response is not a JSON object"

/-- The step-enumeration loop of the `mhmd_toggle_workflow` handler
(`mcp_server.py` lines 184-186): `  {i}. {step}` lines numbered from 1. -/
def stepsEnumAux : List String → Nat → String
  | [], _ => ""
  | s :: rest, i => "  " ++ toString i ++ ". " ++ s ++ "\n" ++ stepsEnumAux rest (i + 1)

/-- Steps enumerated 1..N as the handler renders them. -/
def stepsEnumBlock (steps : List String) : String := stepsEnumAux steps 1

/-- The `ai_browser_automation` handler's report (`mcp_server.py` lines
125-136): on success only the message, a screenshot-presence note and a
comma-joined step list; on failure only the message and the error detail. -/
def renderAiBrowserAutomation (r : WorkflowResult) : String :=
  if r.success then
    "✅ " ++ r.message
    ++ (if truthyOS r.screenshot then "\n📸 Screenshot captured" else "")
    ++ (if r.workflow_steps.isEmpty then ""
        else "\n📋 Steps: " ++ String.intercalate ", " r.workflow_steps)
  else
    "❌ " ++ r.message
    ++ (if truthyOS r.error then "\n🔍 Details: " ++ r.error.getD "" else "")

/-- The success text the `mhmd_toggle_workflow` handler accumulates
(`mcp_server.py` lines 177-198) before the final `.strip()`. -/
def renderMhmdToggleText (r : WorkflowResult) : String :=
  "✅ MHMD Workflow Completed Successfully!\n"
  ++ ("📋 Message: " ++ r.message ++ "\n")
  ++ (if truthyOS r.final_preference then
        "🎯 Final MHMD Preference: " ++ r.final_preference.getD "" ++ "\n"
      else "")
  ++ (if r.workflow_steps.isEmpty then ""
      else "📝 Workflow Steps:\n" ++ stepsEnumBlock r.workflow_steps)
  ++ (if truthyOS r.screenshot then
        "📸 Screenshot: Captured successfully (length: "
          ++ toString (r.screenshot.getD "").length ++ " chars)\n"
      else "")
  ++ (if truthyOS r.screenshot_file_path then
        "🖼️ Screenshot File: " ++ r.screenshot_file_path.getD "" ++ "\n"
      else "")
  ++ (match r.database_verification with
      | some d => "💾 Database Verification: " ++ prefReadRepr d ++ "\n"
      | none => "")
  ++ (if truthyOS r.verification_file_path then
        "📄 Verification File: " ++ r.verification_file_path.getD "" ++ "\n"
      else "")

/-- The `mhmd_toggle_workflow` handler's rendered report (lines 176-207):
the stripped success text, or the two-line failure text. -/
def renderMhmdToggle (r : WorkflowResult) : String :=
  if r.success then pyStrip (renderMhmdToggleText r)
  else
    "❌ MHMD workflow failed: " ++ r.message
    ++ (if truthyOS r.error then "\n🔍 Error Details: " ++ r.error.getD "" else "")

/-- `t` occurs as a contiguous substring of `s`. -/
def ContainsStr (s t : String) : Prop := t.data <:+: s.data

instance (s t : String) : Decidable (ContainsStr s t) :=
  inferInstanceAs (Decidable (t.data <:+: s.data))

/-- At least one step message begins with the `❌` failure marker. -/
def hasFailureMark (steps : List String) : Bool :=
  steps.any (fun s => "❌".data.isPrefixOf s.data)

/-- No step message is an echoed Swagger sub-workflow step. -/
def noSwaggerEcho (steps : List String) : Bool :=
  steps.all (fun s => !("📋 Swagger Workflow: ".data.isPrefixOf s.data))

/-- The `workflow_type` value the classifier would act on for a raw reply
(`none` when the reply does not parse to a mapping). -/
def nlWorkflowType (raw : String) : Option JVal :=
  let content0 := pyStrip raw
  let content := (extractJson content0).getD content0
  match jsonLoads content with
  | some (JVal.obj fields) => some ((jlookup fields "workflow_type").getD (JVal.str "mhmd_only"))
  | _ => none

/-- The raw reply classifies as the `swagger_only` workflow variant. -/
def nlClassifiesSwaggerOnly (raw : String) : Bool :=
  match nlWorkflowType raw with
  | some wt => jvalEqStr wt "swagger_only"
  | none => false

/-- The raw `take_screenshot` call succeeded (did not raise). -/
def shotOk (r : Except String String) : Bool :=
  match r with
  | .ok _ => true
  | .error _ => false

/-- The fail-fast behaviour the toggle workflow actually implements, for an
execution that got past navigation: a failed Preferences click stops every
later primitive; past it, the fill-field primitives run exactly when the
radio toggle succeeded (their own results are never consulted); save's
success alone admits the wait-for-success and screenshot (the wait result
gates nothing); the DB verification runs, and the envelope reports success,
exactly when the three checked clicks and the raw screenshot all succeeded —
independently of the fill and wait results — and no primitive is ever
performed twice. -/
def ToggleAbortProp (env : ToggleEnv) (input : MHMDWorkflowInput) (url : String) : Prop :=
  (Prim.toggleRadio ∈ (execute_mhmd_toggle_workflow env input url).prims ↔
      env.prefsClick.success = true) ∧
  (Prim.fillName ∈ (execute_mhmd_toggle_workflow env input url).prims ↔
      (env.prefsClick.success = true ∧ env.toggleResult.success = true)) ∧
  (Prim.fillEmail ∈ (execute_mhmd_toggle_workflow env input url).prims ↔
      (env.prefsClick.success = true ∧ env.toggleResult.success = true)) ∧
  (Prim.clickSave ∈ (execute_mhmd_toggle_workflow env input url).prims ↔
      (env.prefsClick.success = true ∧ env.toggleResult.success = true)) ∧
  (Prim.waitSuccess ∈ (execute_mhmd_toggle_workflow env input url).prims ↔
      (env.prefsClick.success = true ∧ env.toggleResult.success = true ∧
       env.saveResult.success = true)) ∧
  (Prim.takeShot ∈ (execute_mhmd_toggle_workflow env input url).prims ↔
      (env.prefsClick.success = true ∧ env.toggleResult.success = true ∧
       env.saveResult.success = true)) ∧
  (Prim.readPrefFinal ∈ (execute_mhmd_toggle_workflow env input url).prims ↔
      (env.prefsClick.success = true ∧ env.toggleResult.success = true ∧
       env.saveResult.success = true ∧ shotOk env.screenshotResult = true)) ∧
  ((execute_mhmd_toggle_workflow env input url).result.success = true ↔
      (env.prefsClick.success = true ∧ env.toggleResult.success = true ∧
       env.saveResult.success = true ∧ shotOk env.screenshotResult = true)) ∧
  (∀ p : Prim, ((execute_mhmd_toggle_workflow env input url).prims.count p) ≤ 1)

/-- A failure envelope whose step log is non-empty, carries a `❌`-marked
entry, and whose `❌ Error: <reason>` entry matches the envelope's `error`
field. -/
def FailureEnvelopeMarked (ex : WorkflowExec) : Prop :=
  ex.result.workflow_steps ≠ [] ∧
  hasFailureMark ex.result.workflow_steps = true ∧
  ("❌ Error: " ++ ex.result.error.getD "") ∈ ex.result.workflow_steps

/-- What the `mhmd_toggle_workflow` handler's success report preserves from
the envelope (each optional field defaults to the trivially-contained empty
string when its key is absent). -/
def MhmdRenderPreserves (r : WorkflowResult) : Prop :=
  ContainsStr (renderMhmdToggleText r) r.message ∧
  ContainsStr (renderMhmdToggleText r) (r.final_preference.getD "") ∧
  (r.workflow_steps.all (fun s => decide (ContainsStr (renderMhmdToggleText r) s)) = true) ∧
  ContainsStr (renderMhmdToggleText r)
    (if truthyOS r.screenshot then "📸 Screenshot: Captured successfully" else "") ∧
  ContainsStr (renderMhmdToggleText r)
    (if truthyOS r.screenshot then toString (r.screenshot.getD "").length else "") ∧
  ContainsStr (renderMhmdToggleText r) (r.screenshot_file_path.getD "") ∧
  ContainsStr (renderMhmdToggleText r) ((r.database_verification.map prefReadRepr).getD "") ∧
  ContainsStr (renderMhmdToggleText r) (r.verification_file_path.getD "")

/-- A benign error-handler environment for sample runs. -/
def okErr : ErrEnv :=
  { errorScreenshotResult := .ok "ERRB64"
    errorSaveShotPath := "err_shot.png"
    errorSaveVerifPath := "err_verif.json" }

/-- A stored record in the `OPT_OUT` state. -/
def okStore : StoredUser :=
  { name := "Alice", email := "alice@example.com", mhmd_preference := "OPT_OUT" }

/-- A toggle environment in which every collaborator call succeeds. -/
def okToggleEnv : ToggleEnv :=
  { browserConnected := true
    gotoResult := .ok ()
    prefsClick := { success := true, message := "Successfully clicked element Preferences" }
    storeAtRead := okStore
    toggleResult := { success := true, message := "Successfully selected radio button with value: OPT_IN" }
    fillNameResult := { success := true, message := "Successfully filled input field" }
    fillEmailResult := { success := true, message := "Successfully filled input field" }
    saveResult := { success := true, message := "Successfully clicked save button" }
    waitSuccessResult := { success := true, message := "Success message appeared: Saved" }
    screenshotResult := .ok "B64DATA"
    storeAtVerify := { name := "Alice", email := "alice@example.com", mhmd_preference := "OPT_IN" }
    saveShotPath := "shot.png"
    saveVerifPath := "verif.json"
    randId := "ab12cd"
    err := okErr }

/-- Like `okToggleEnv` but the name-fill primitive reports failure. -/
def fillFailToggleEnv : ToggleEnv :=
  { okToggleEnv with
    fillNameResult :=
      { success := false
        message := "Failed to fill input field input[type=text]: timeout" } }

/-- Like `okToggleEnv` but the save-button primitive reports failure. -/
def saveFailToggleEnv : ToggleEnv :=
  { okToggleEnv with
    saveResult := { success := false, message := "Could not find save button" } }

/-- A Swagger environment in which every collaborator call succeeds. -/
def okSwaggerEnv : SwaggerEnv :=
  { browserConnected := true
    gotoResult := .ok ()
    uiLoad := .ok ()
    endpointClick := .ok ()
    tryItClick := .ok ()
    executeClick := .ok ()
    responseWait := .ok ()
    statusRead := .ok "200"
    bodyRead := .ok "response-body"
    screenshotResult := .ok "SWB64"
    storeAtVerify := { name := "Alice", email := "alice@example.com", mhmd_preference := "OPT_IN" }
    saveShotPath := "sw_shot.png"
    saveVerifPath := "sw_verif.json"
    err := okErr }

/-- An API-test environment whose POST succeeds with a created record. -/
def okApiTestEnv : ApiTestEnv :=
  { toSwaggerEnv := okSwaggerEnv
    postStatus := 200
    postName := "Test User ab12cd"
    postEmail := "testuser_ab12cd@example.com"
    postPref := "OPT_IN" }

/-- A Swagger-UI-only environment whose UI-load wait raises. -/
def failSwaggerEnv : SwaggerEnv :=
  { okSwaggerEnv with uiLoad := .error "Timeout waiting for Swagger UI" }

/-- An API-test environment whose record-creating POST returns HTTP 500. -/
def failApiTestEnv : ApiTestEnv :=
  { okApiTestEnv with postStatus := 500 }

/-- A combined environment in which both sub-workflows succeed. -/
def okCombinedEnv : CombinedEnv :=
  { browserConnected := true
    toggleEnv := okToggleEnv
    swaggerEnv := okSwaggerEnv
    randId1 := "ab12cd"
    randId2 := "xy34zw"
    randPref := .OPT_IN
    combinedShotPaths := ["comb_mhmd.png", "comb_swagger.png"]
    saveVerifPath := "comb_verif.json" }

/-- A combined environment whose toggle sub-workflow fails at the save step. -/
def failCombinedEnv : CombinedEnv :=
  { okCombinedEnv with toggleEnv := saveFailToggleEnv }

/-- A natural-language environment around a given raw model reply. -/
def sampleNLEnv (raw : String) : NLEnv :=
  { rawReply := raw
    toggleEnv := okToggleEnv
    combinedEnv := okCombinedEnv
    apiTestEnv := okApiTestEnv }

/-- A model reply that is one JSON object containing a nested object. -/
def nestedReply : String :=
  "\x7b\"workflow_type\": \"combined\", \"meta\": \x7b\"x\": 1\x7d\x7d"

/-- A model reply with no parseable JSON object at all. -/
def gibberishReply : String := "Sorry, I cannot help with that."

/-- A model reply classifying as the swagger_only variant. -/
def swaggerOnlyReply : String := "\x7b\"workflow_type\": \"swagger_only\"\x7d"

/-- A success envelope carrying every optional field, used to exhibit what
the `ai_browser_automation` handler's report drops. -/
def sampleEnvelope : WorkflowResult :=
  { success := true
    message := "MHMD preference toggle workflow completed successfully"
    workflow_steps := ["step one", "step two"]
    screenshot := some "B64DATA"
    screenshot_file_path := some "automation_results/screenshots/mhmd_workflow_20250101_120000.png"
    final_preference := some "OPT_IN"
    api_response_status := none
    test_user_data := none
    database_verification := some (get_current_mhmd_preference
      { name := "Alice", email := "alice@example.com", mhmd_preference := "OPT_IN" })
    verification_file_path := some "automation_results/verifications/mhmd_workflow_verification_20250101_120000.json"
    error := none }

theorem strDataAppend (a b : String) : (a ++ b).data = a.data ++ b.data := rfl

theorem strExt {a b : String} (h : a.data = b.data) : a = b := by
  cases a; cases b; simp_all

theorem ContainsStr.addLeft (u : String) {s t : String} (h : ContainsStr s t) :
    ContainsStr (u ++ s) t := by
  obtain ⟨x, y, hxy⟩ := h
  exact ⟨u.data ++ x, y, by rw [strDataAppend, ← hxy]; simp⟩

theorem ContainsStr.addRight (u : String) {s t : String} (h : ContainsStr s t) :
    ContainsStr (s ++ u) t := by
  obtain ⟨x, y, hxy⟩ := h
  exact ⟨x, y ++ u.data, by rw [strDataAppend, ← hxy]; simp⟩

theorem ContainsStr.self (t : String) : ContainsStr t t := ⟨[], [], by simp⟩

theorem containsStr_mid (a t b : String) : ContainsStr (a ++ t ++ b) t :=
  ((ContainsStr.self t).addLeft a).addRight b

theorem splitFirst_append_absent (c : Char) (l1 l2 : List Char)
    (h : l1.all (fun x => !(x == c)) = true) :
    splitFirst c (l1 ++ l2) = (splitFirst c l2).map (fun p => (l1 ++ p.1, p.2)) := by
  induction l1 with
  | nil => cases hs : splitFirst c l2 <;> simp [hs]
  | cons x xs ih =>
      simp only [List.all_cons, Bool.and_eq_true] at h
      have hx : ¬ (x = c) := by
        intro hh
        rw [hh] at h
        simp at h
      rw [List.cons_append]
      rw [show splitFirst c (x :: (xs ++ l2)) =
            (splitFirst c (xs ++ l2)).map (fun p => (x :: p.1, p.2)) from by
        simp [splitFirst, hx]]
      rw [ih h.2]
      cases hs : splitFirst c l2 <;> simp

theorem isRandId_no_at (r : String) (h : isRandId r = true) :
    r.data.all (fun x => !(x == '@')) = true := by
  unfold isRandId at h
  simp only [Bool.and_eq_true, List.all_eq_true] at h ⊢
  intro x hx
  have hlx := h.2 x hx
  simp only [Bool.not_eq_true', beq_eq_false_iff_ne, ne_eq]
  intro hc
  subst hc
  exact absurd hlx (by decide)

theorem synthesizedEmail_valid (r : String) (h : isRandId r = true) :
    validEmailShape ("testuser_" ++ r ++ "@example.com") = true := by
  have hpre : ("testuser_".data).all (fun x => !(x == '@')) = true := by decide
  have hr := isRandId_no_at r h
  have hall : (("testuser_" ++ r).data).all (fun x => !(x == '@')) = true := by
    rw [strDataAppend, List.all_append, hpre, hr]
    rfl
  have hne : ("testuser_" ++ r).data ≠ [] := by
    rw [strDataAppend]
    intro hcon
    have h1 : "testuser_".data = [] := (List.append_eq_nil.mp hcon).1
    exact absurd h1 (by decide)
  unfold validEmailShape
  rw [strDataAppend, splitFirst_append_absent _ _ _ hall]
  rw [show splitFirst '@' "@example.com".data = some ([], "example.com".data) from by decide]
  simp [List.isEmpty_iff, hne]

theorem synthesizedEmail_inj (r1 r2 : String) (h : r1 ≠ r2) :
    ("testuser_" ++ r1 ++ "@example.com" : String) ≠
      "testuser_" ++ r2 ++ "@example.com" := by
  intro he
  apply h
  have hd : ("testuser_" ++ r1 ++ "@example.com").data =
      ("testuser_" ++ r2 ++ "@example.com").data := by rw [he]
  rw [strDataAppend, strDataAppend, strDataAppend, strDataAppend] at hd
  exact strExt (List.append_cancel_left (List.append_cancel_right hd))

theorem synthesizedEmail_ne_empty (r : String) :
    ("testuser_" ++ r ++ "@example.com" : String) ≠ "" := by
  intro he
  have hd : ("testuser_" ++ r ++ "@example.com").data = [] := by rw [he]
  rw [strDataAppend, strDataAppend] at hd
  have h1 := (List.append_eq_nil.mp (List.append_eq_nil.mp hd).1).1
  exact absurd h1 (by decide)

/-- C2: in the preference-toggle workflow the target preference is computed
once — an explicit input preference is used as given; otherwise the persisted
preference is read and flipped, with `OPT_OUT` (and, via the dict-`get`
default, an absent or unreadable record) toggling to `OPT_IN`, and any other
readable value toggling to `OPT_OUT`.  (Amended: an absent/unreadable record
yields target `OPT_IN`, not `OPT_OUT`.) -/
theorem C2_target_preference (store : StoredUser) (n e : Option String)
    (p : MHMDPreference) :
    computeTargetPref ⟨n, e, some p⟩ (get_current_mhmd_preference store) = p.value ∧
    computeTargetPref ⟨n, e, none⟩ (get_current_mhmd_preference store) =
      (match get_user_data store with
       | some u => if u.mhmd_preference = .OPT_OUT then "OPT_IN" else "OPT_OUT"
       | none => "OPT_IN") := by
  refine ⟨rfl, ?_⟩
  cases hu : get_user_data store with
  | none => simp [computeTargetPref, get_current_mhmd_preference, hu]
  | some u =>
      cases hp : u.mhmd_preference <;>
        simp [computeTargetPref, get_current_mhmd_preference, hu, hp,
          MHMDPreference.value]

/-- C2 counterexample: with no explicit target and an absent record (empty
stored name/email), the read fails and the computed target is `OPT_IN`,
not the `OPT_OUT` the claim asserts for an absent/unreadable record. -/
theorem C2_absent_record_counterexample :
    (get_current_mhmd_preference ⟨"", "", "OPT_OUT"⟩).success = false ∧
    computeTargetPref ⟨none, none, none⟩
      (get_current_mhmd_preference ⟨"", "", "OPT_OUT"⟩) = "OPT_IN" ∧
    computeTargetPref ⟨none, none, none⟩
      (get_current_mhmd_preference ⟨"", "", "OPT_OUT"⟩) ≠ "OPT_OUT" := by
  refine ⟨rfl, rfl, ?_⟩
  decide

/-- C9: with an input email that is absent, empty or the sentinel `"random"`
(the code's sentinel test also treats `""` as absent), the engine synthesizes
`testuser_<6 random lowercase/digit chars>@example.com` — a syntactically
valid, non-empty address, distinct for distinct random draws — while any
other input email is used unchanged. -/
theorem C9_email_synthesis (e? : Option String) (r1 r2 e' : String)
    (h1 : isRandId r1 = true) (h3 : emailIsSentinel e? = true)
    (h5 : r1 ≠ r2) (h4 : e' ≠ "" ∧ e' ≠ "random") :
    computeUserEmail e? r1 = "testuser_" ++ r1 ++ "@example.com" ∧
    validEmailShape (computeUserEmail e? r1) = true ∧
    computeUserEmail e? r1 ≠ "" ∧
    computeUserEmail e? r1 ≠ computeUserEmail e? r2 ∧
    computeUserEmail (some e') r1 = e' := by
  have hsyn : computeUserEmail e? r1 = "testuser_" ++ r1 ++ "@example.com" := by
    unfold computeUserEmail
    rw [h3]
    rfl
  have hsyn2 : computeUserEmail e? r2 = "testuser_" ++ r2 ++ "@example.com" := by
    unfold computeUserEmail
    rw [h3]
    rfl
  refine ⟨hsyn, ?_, ?_, ?_, ?_⟩
  · rw [hsyn]
    exact synthesizedEmail_valid r1 h1
  · rw [hsyn]
    exact synthesizedEmail_ne_empty r1
  · rw [hsyn, hsyn2]
    exact synthesizedEmail_inj r1 r2 h5
  · have hns : emailIsSentinel (some e') = false := by
      unfold emailIsSentinel
      simp [h4.1, h4.2]
    unfold computeUserEmail
    rw [hns]
    rfl

/-- C9 witness: concrete instantiation — absent email with random id
`ab12cd` synthesizes `testuser_ab12cd@example.com`, distinct from the
`xy34zw` draw, while the non-sentinel email `bob@x.com` passes unchanged. -/
theorem C9_email_synthesis_witness :
    isRandId "ab12cd" = true ∧ emailIsSentinel none = true ∧
    ("ab12cd" : String) ≠ "xy34zw" ∧
    (("bob@x.com" : String) ≠ "" ∧ ("bob@x.com" : String) ≠ "random") ∧
    (computeUserEmail none "ab12cd" = "testuser_" ++ "ab12cd" ++ "@example.com" ∧
     validEmailShape (computeUserEmail none "ab12cd") = true ∧
     computeUserEmail none "ab12cd" ≠ "" ∧
     computeUserEmail none "ab12cd" ≠ computeUserEmail none "xy34zw" ∧
     computeUserEmail (some "bob@x.com") "ab12cd" = "bob@x.com") :=
  ⟨by decide, by decide, by decide, ⟨by decide, by decide⟩,
   C9_email_synthesis none "ab12cd" "xy34zw" "bob@x.com" (by decide) (by decide)
     (by decide) ⟨by decide, by decide⟩⟩

/-- C9 counterexample: the empty-string email — a value other than
null/absent and other than the literal `"random"` — is not used unchanged:
the engine synthesizes a random address for it. -/
theorem C9_empty_email_counterexample :
    ("" : String) ≠ "random" ∧
    computeUserEmail (some "") "ab12cd" = "testuser_ab12cd@example.com" ∧
    computeUserEmail (some "") "ab12cd" ≠ "" := by
  refine ⟨by decide, rfl, by decide⟩

/-- C10: the partial update writes exactly the fields supplied with a
non-`None` value; every field supplied `None`/absent retains its previous
stored value, and the all-absent update is the identity on the store. -/
theorem C10_update_frame (u : StoredUser) (n? e? : Option String)
    (p? : Option MHMDPreference) (n e : String) (p : MHMDPreference) :
    ((update_user_data u none e? p?).1.name = u.name) ∧
    ((update_user_data u n? none p?).1.email = u.email) ∧
    ((update_user_data u n? e? none).1.mhmd_preference = u.mhmd_preference) ∧
    ((update_user_data u (some n) e? p?).1.name = n) ∧
    ((update_user_data u n? (some e) p?).1.email = e) ∧
    ((update_user_data u n? e? (some p)).1.mhmd_preference = p.value) ∧
    ((update_user_data u none none none).1 = u) :=
  ⟨rfl, rfl, rfl, rfl, rfl, rfl, rfl⟩

set_option maxHeartbeats 2000000 in
/-- C1 (amended): the toggle workflow fail-fasts only on the primitives whose
results it checks — Preferences click, radio toggle, save click: a failed
Preferences click stops every later primitive; past it, the fill-field
primitives run iff the toggle succeeded (their own results are never
consulted), and save's success alone admits the wait-for-success and
screenshot; the DB verification runs, and the envelope reports success, iff
the three checked clicks and the raw screenshot succeeded — independently of
the fill and wait-for-success results.  No primitive is retried. -/
theorem C1_fail_fast (env : ToggleEnv) (input : MHMDWorkflowInput) (url : String)
    (hb : env.browserConnected = true) (hg : env.gotoResult = Except.ok ()) :
    ToggleAbortProp env input url := by
  unfold ToggleAbortProp
  unfold execute_mhmd_toggle_workflow
  rw [hb, hg]
  simp only [Bool.not_true, Bool.false_eq_true, if_false]
  cases hp : env.prefsClick.success <;>
  cases hpref : input.preference <;>
  cases htog : env.toggleResult.success <;>
  cases hsave : env.saveResult.success <;>
  cases hshot : env.screenshotResult <;>
  cases herr : env.err.errorScreenshotResult <;>
  simp only [failureExec, shotOk, hp, hpref, htog, hsave, hshot, herr, Bool.not_true,
    Bool.not_false, if_true, if_false, Bool.false_eq_true, Bool.true_eq_false] <;>
  (try split_ifs) <;>
  decide

/-- C1 witness: a fully-successful run — every checked primitive succeeded,
so all primitives appear, each exactly once, and the envelope reports
success. -/
theorem C1_fail_fast_witness :
    okToggleEnv.browserConnected = true ∧
    okToggleEnv.gotoResult = Except.ok () ∧
    ToggleAbortProp okToggleEnv ⟨some "Bob", none, none⟩ "http://localhost:3000" :=
  ⟨rfl, rfl,
   C1_fail_fast okToggleEnv ⟨some "Bob", none, none⟩ "http://localhost:3000" rfl rfl⟩

/-- C1 counterexample: the name-fill primitive reports `success=false`, yet
the workflow goes on to click save, wait for the success message, screenshot
and verify the database — and returns `success=true` — contradicting the
claim that the first failed primitive aborts all remaining steps. -/
theorem C1_fill_failure_counterexample :
    fillFailToggleEnv.fillNameResult.success = false ∧
    (execute_mhmd_toggle_workflow fillFailToggleEnv
      ⟨some "Bob", some "bob@x.com", some .OPT_IN⟩ "http://localhost:3000").prims =
      [.gotoPage, .clickPrefs, .toggleRadio, .fillName, .fillEmail, .clickSave,
       .waitSuccess, .takeShot, .readPrefFinal, .saveShotFile, .saveVerifFile] ∧
    (execute_mhmd_toggle_workflow fillFailToggleEnv
      ⟨some "Bob", some "bob@x.com", some .OPT_IN⟩ "http://localhost:3000").result.success
      = true := by
  refine ⟨rfl, ?_, rfl⟩
  decide

theorem markPrefixErr (msg : String) :
    ("❌".data.isPrefixOf ("❌ Error: " ++ msg).data) = true := by
  have h1 : ("❌ Error: " ++ msg).data = '❌' :: (" Error: ".data ++ msg.data) := by
    rw [strDataAppend]
    rfl
  rw [h1]
  have h2 : "❌".data = ['❌'] := rfl
  rw [h2]
  simp [List.isPrefixOf]

theorem markPrefixCombined (msg : String) :
    ("❌".data.isPrefixOf ("❌ Combined workflow error: " ++ msg).data) = true := by
  have h1 : ("❌ Combined workflow error: " ++ msg).data =
      '❌' :: (" Combined workflow error: ".data ++ msg.data) := by
    rw [strDataAppend]
    rfl
  rw [h1]
  have h2 : "❌".data = ['❌'] := rfl
  rw [h2]
  simp [List.isPrefixOf]

theorem failureExec_steps (ee : ErrEnv) (pfx note : String) (steps0 : List String)
    (prims0 : List Prim) (po : Bool) (posts : Nat) (errMsg : String) :
    (failureExec ee pfx note steps0 prims0 po posts errMsg).result.workflow_steps ≠ [] ∧
    hasFailureMark
      ((failureExec ee pfx note steps0 prims0 po posts errMsg).result.workflow_steps) = true ∧
    ("❌ Error: " ++ errMsg) ∈
      (failureExec ee pfx note steps0 prims0 po posts errMsg).result.workflow_steps ∧
    (failureExec ee pfx note steps0 prims0 po posts errMsg).result.error = some errMsg ∧
    (failureExec ee pfx note steps0 prims0 po posts errMsg).result.message = pfx ++ errMsg := by
  unfold failureExec hasFailureMark
  cases po <;> cases hsr : ee.errorScreenshotResult <;> split_ifs <;>
    simp [List.any_append, markPrefixErr]

theorem toggle_fail_shape (env : ToggleEnv) (input : MHMDWorkflowInput) (url : String)
    (h : (execute_mhmd_toggle_workflow env input url).result.success = false) :
    ∃ ee pfx note steps0 prims0 po posts errMsg,
      execute_mhmd_toggle_workflow env input url =
        failureExec ee pfx note steps0 prims0 po posts errMsg := by
  cases hb : env.browserConnected <;>
  cases hg : env.gotoResult <;>
  cases hp : env.prefsClick.success <;>
  cases hpref : input.preference <;>
  cases htog : env.toggleResult.success <;>
  cases hsave : env.saveResult.success <;>
  cases hshot : env.screenshotResult <;>
  simp only [execute_mhmd_toggle_workflow, hb, hg, hp, hpref, htog, hsave, hshot,
    Bool.not_true, Bool.not_false, Bool.false_eq_true, Bool.true_eq_false,
    if_true, if_false] at h ⊢ <;>
  exact ⟨_, _, _, _, _, _, _, _, rfl⟩

set_option maxHeartbeats 1000000 in
theorem swagger_fail_shape (env : SwaggerEnv) (url : String)
    (h : (execute_swagger_ui_only_workflow env url).result.success = false) :
    ∃ ee pfx note steps0 prims0 po posts errMsg,
      execute_swagger_ui_only_workflow env url =
        failureExec ee pfx note steps0 prims0 po posts errMsg := by
  cases hb : env.browserConnected <;>
  cases hg : env.gotoResult <;>
  cases h1 : env.uiLoad <;>
  cases h2 : env.endpointClick <;>
  cases h3 : env.tryItClick <;>
  cases h4 : env.executeClick <;>
  cases h5 : env.responseWait <;>
  cases h6 : env.statusRead <;>
  cases h7 : env.screenshotResult <;>
  simp only [execute_swagger_ui_only_workflow, hb, hg, h1, h2, h3, h4, h5, h6, h7,
    Bool.not_true, Bool.not_false, Bool.false_eq_true, Bool.true_eq_false,
    if_true, if_false] at h ⊢ <;>
  exact ⟨_, _, _, _, _, _, _, _, rfl⟩

set_option maxHeartbeats 1000000 in
theorem apiTest_fail_shape (env : ApiTestEnv) (url : String)
    (h : (execute_swagger_api_test_workflow env url).result.success = false) :
    ∃ ee pfx note steps0 prims0 po posts errMsg,
      execute_swagger_api_test_workflow env url =
        failureExec ee pfx note steps0 prims0 po posts errMsg := by
  by_cases hps : env.postStatus = 200
  · cases hb : env.browserConnected <;>
    cases hg : env.gotoResult <;>
    cases h1 : env.uiLoad <;>
    cases h2 : env.endpointClick <;>
    cases h3 : env.tryItClick <;>
    cases h4 : env.executeClick <;>
    cases h5 : env.responseWait <;>
    cases h6 : env.statusRead <;>
    cases h7 : env.screenshotResult <;>
    simp only [execute_swagger_api_test_workflow, hps, hb, hg, h1, h2, h3, h4, h5, h6, h7,
      ne_eq, eq_self_iff_true, not_true, Bool.not_true, Bool.not_false,
      Bool.false_eq_true, Bool.true_eq_false, if_true, if_false] at h ⊢ <;>
    exact ⟨_, _, _, _, _, _, _, _, rfl⟩
  · cases hb : env.browserConnected <;>
    simp only [execute_swagger_api_test_workflow, hb, Bool.not_true, Bool.not_false,
      Bool.false_eq_true, Bool.true_eq_false, if_true, if_false] <;>
    (try rw [if_pos hps]) <;>
    exact ⟨_, _, _, _, _, _, _, _, rfl⟩

theorem failureExec_mark_err (ee : ErrEnv) (pfx note : String) (steps0 : List String)
    (prims0 : List Prim) (po : Bool) (posts : Nat) (errMsg : String) :
    FailureEnvelopeMarked (failureExec ee pfx note steps0 prims0 po posts errMsg) := by
  have L := failureExec_steps ee pfx note steps0 prims0 po posts errMsg
  refine ⟨L.1, L.2.1, ?_⟩
  have herr : (failureExec ee pfx note steps0 prims0 po posts errMsg).result.error.getD ""
      = errMsg := by
    rw [L.2.2.2.1]
    rfl
  rw [herr]
  exact L.2.2.1

theorem combinedFailure_steps (steps : List String) (errMsg : String) (swInv : Bool)
    (o c p : Nat) :
    (combinedFailure steps errMsg swInv o c p).result.workflow_steps ≠ [] ∧
    hasFailureMark ((combinedFailure steps errMsg swInv o c p).result.workflow_steps)
      = true := by
  unfold combinedFailure hasFailureMark
  simp [List.any_append, markPrefixCombined]

theorem combined_fail_shape (env : CombinedEnv) (input? : Option MHMDWorkflowInput)
    (uf ub : String)
    (h : (execute_combined_mhmd_swagger_workflow env input? uf ub).result.success = false) :
    ∃ steps errMsg swInv o c p,
      execute_combined_mhmd_swagger_workflow env input? uf ub =
        combinedFailure steps errMsg swInv o c p := by
  cases hb : env.browserConnected <;>
  cases hm : (execute_mhmd_toggle_workflow { env.toggleEnv with browserConnected := true }
      (combinedEffInput env input?) uf).result.success <;>
  cases hs : (execute_swagger_ui_only_workflow { env.swaggerEnv with browserConnected := true }
      ub).result.success <;>
  simp only [execute_combined_mhmd_swagger_workflow, hb, hm, hs,
    Bool.not_true, Bool.not_false, Bool.false_eq_true, Bool.true_eq_false,
    if_true, if_false] at h ⊢ <;>
  exact ⟨_, _, _, _, _, _, rfl⟩

/-- C3 (amended): every failure envelope the Workflow Engine itself returns —
preference-toggle, API-verification-only (Swagger UI), swagger-api-test and
combined alike — has a non-empty step log containing an entry that begins
with the `❌` failure marker, and for the three page-owning workflows the
entry `❌ Error: <reason>` matches the envelope's `error` field.  The one
exception is the natural-language entry point's classification-failure
envelope, which carries no `workflow_steps` key at all (see the
counterexample). -/
theorem C3_failure_envelope (envT : ToggleEnv) (input : MHMDWorkflowInput) (url : String)
    (envS : SwaggerEnv) (urlS : String) (envA : ApiTestEnv) (urlA : String)
    (envC : CombinedEnv) (input2 : Option MHMDWorkflowInput) (uf ub : String)
    (h1 : (execute_mhmd_toggle_workflow envT input url).result.success = false)
    (h2 : (execute_swagger_ui_only_workflow envS urlS).result.success = false)
    (h3 : (execute_swagger_api_test_workflow envA urlA).result.success = false)
    (h4 : (execute_combined_mhmd_swagger_workflow envC input2 uf ub).result.success = false) :
    FailureEnvelopeMarked (execute_mhmd_toggle_workflow envT input url) ∧
    FailureEnvelopeMarked (execute_swagger_ui_only_workflow envS urlS) ∧
    FailureEnvelopeMarked (execute_swagger_api_test_workflow envA urlA) ∧
    ((execute_combined_mhmd_swagger_workflow envC input2 uf ub).result.workflow_steps ≠ [] ∧
     hasFailureMark
       ((execute_combined_mhmd_swagger_workflow envC input2 uf ub).result.workflow_steps)
       = true) := by
  obtain ⟨ee1, pfx1, note1, s1, p1, po1, posts1, err1, hq1⟩ :=
    toggle_fail_shape envT input url h1
  obtain ⟨ee2, pfx2, note2, s2, p2, po2, posts2, err2, hq2⟩ :=
    swagger_fail_shape envS urlS h2
  obtain ⟨ee3, pfx3, note3, s3, p3, po3, posts3, err3, hq3⟩ :=
    apiTest_fail_shape envA urlA h3
  obtain ⟨cs, ce, csw, co, cc, cp, hq4⟩ := combined_fail_shape envC input2 uf ub h4
  rw [hq1, hq2, hq3, hq4]
  exact ⟨failureExec_mark_err ee1 pfx1 note1 s1 p1 po1 posts1 err1,
    failureExec_mark_err ee2 pfx2 note2 s2 p2 po2 posts2 err2,
    failureExec_mark_err ee3 pfx3 note3 s3 p3 po3 posts3 err3,
    combinedFailure_steps cs ce csw co cc cp⟩

/-- C3 witness: a toggle run whose save click fails, a Swagger-UI run whose
UI-load wait raises, an api-test run whose creating POST returns HTTP 500 and
a combined run whose toggle sub-workflow fails all yield marked, non-empty
step logs whose `❌ Error:` entry matches the error field. -/
theorem C3_failure_envelope_witness :
    (execute_mhmd_toggle_workflow saveFailToggleEnv ⟨none, none, none⟩
      "http://localhost:3000").result.success = false ∧
    (execute_swagger_ui_only_workflow failSwaggerEnv
      "http://localhost:8000").result.success = false ∧
    (execute_swagger_api_test_workflow failApiTestEnv
      "http://localhost:8000").result.success = false ∧
    (execute_combined_mhmd_swagger_workflow failCombinedEnv none
      "http://localhost:3000" "http://localhost:8000").result.success = false ∧
    (FailureEnvelopeMarked (execute_mhmd_toggle_workflow saveFailToggleEnv
        ⟨none, none, none⟩ "http://localhost:3000") ∧
     FailureEnvelopeMarked (execute_swagger_ui_only_workflow failSwaggerEnv
        "http://localhost:8000") ∧
     FailureEnvelopeMarked (execute_swagger_api_test_workflow failApiTestEnv
        "http://localhost:8000") ∧
     ((execute_combined_mhmd_swagger_workflow failCombinedEnv none
         "http://localhost:3000" "http://localhost:8000").result.workflow_steps ≠ [] ∧
      hasFailureMark ((execute_combined_mhmd_swagger_workflow failCombinedEnv none
         "http://localhost:3000" "http://localhost:8000").result.workflow_steps) = true)) :=
  ⟨rfl, rfl, rfl, rfl,
   C3_failure_envelope saveFailToggleEnv ⟨none, none, none⟩ "http://localhost:3000"
     failSwaggerEnv "http://localhost:8000" failApiTestEnv "http://localhost:8000"
     failCombinedEnv none "http://localhost:3000" "http://localhost:8000"
     rfl rfl rfl rfl⟩

/-- C3 counterexample: the natural-language entry point's parse-failure
envelope has `success=false` but no `workflow_steps` key at all, so the
claimed implication fails for this public operation. -/
theorem C3_nl_counterexample :
    (process_natural_language_command (sampleNLEnv gibberishReply) "do something"
      "http://localhost:3000").result.success = false ∧
    (process_natural_language_command (sampleNLEnv gibberishReply) "do something"
      "http://localhost:3000").result.workflow_steps = none ∧
    (process_natural_language_command (sampleNLEnv gibberishReply) "do something"
      "http://localhost:3000").result.raw_ai_response = some gibberishReply :=
  ⟨rfl, rfl, rfl⟩

set_option maxHeartbeats 1000000 in
theorem toggle_pages (env : ToggleEnv) (input : MHMDWorkflowInput) (url : String) :
    (execute_mhmd_toggle_workflow env input url).pagesOpened =
      (if env.browserConnected then 1 else 0) ∧
    (execute_mhmd_toggle_workflow env input url).pagesClosed =
      (execute_mhmd_toggle_workflow env input url).pagesOpened ∧
    (execute_mhmd_toggle_workflow env input url).postsCreate = 0 := by
  cases hb : env.browserConnected <;>
  cases hg : env.gotoResult <;>
  cases hp : env.prefsClick.success <;>
  cases hpref : input.preference <;>
  cases htog : env.toggleResult.success <;>
  cases hsave : env.saveResult.success <;>
  cases hshot : env.screenshotResult <;>
  simp only [execute_mhmd_toggle_workflow, hb, hg, hp, hpref, htog, hsave,
    hshot, Bool.not_true, Bool.not_false, Bool.false_eq_true, Bool.true_eq_false,
    if_true, if_false] <;>
  exact ⟨by trivial, by trivial, by trivial⟩

set_option maxHeartbeats 1000000 in
theorem swagger_pages (env : SwaggerEnv) (url : String) :
    (execute_swagger_ui_only_workflow env url).pagesOpened =
      (if env.browserConnected then 1 else 0) ∧
    (execute_swagger_ui_only_workflow env url).pagesClosed =
      (execute_swagger_ui_only_workflow env url).pagesOpened ∧
    (execute_swagger_ui_only_workflow env url).postsCreate = 0 := by
  cases hb : env.browserConnected <;>
  cases hg : env.gotoResult <;>
  cases h1 : env.uiLoad <;>
  cases h2 : env.endpointClick <;>
  cases h3 : env.tryItClick <;>
  cases h4 : env.executeClick <;>
  cases h5 : env.responseWait <;>
  cases h6 : env.statusRead <;>
  cases h7 : env.screenshotResult <;>
  simp only [execute_swagger_ui_only_workflow, hb, hg, h1, h2, h3, h4, h5,
    h6, h7, Bool.not_true, Bool.not_false, Bool.false_eq_true, Bool.true_eq_false,
    if_true, if_false] <;>
  exact ⟨by trivial, by trivial, by trivial⟩

set_option maxHeartbeats 1000000 in
theorem apiTest_pages (env : ApiTestEnv) (url : String) :
    (execute_swagger_api_test_workflow env url).pagesOpened =
      (if env.browserConnected then 1 else 0) ∧
    (execute_swagger_api_test_workflow env url).pagesClosed =
      (execute_swagger_api_test_workflow env url).pagesOpened ∧
    (execute_swagger_api_test_workflow env url).postsCreate =
      (if env.browserConnected then 1 else 0) := by
  cases hb : env.browserConnected <;>
  cases hg : env.gotoResult <;>
  cases h1 : env.uiLoad <;>
  cases h2 : env.endpointClick <;>
  cases h3 : env.tryItClick <;>
  cases h4 : env.executeClick <;>
  cases h5 : env.responseWait <;>
  cases h6 : env.statusRead <;>
  cases h7 : env.screenshotResult <;>
  simp only [execute_swagger_api_test_workflow, hb, hg, h1, h2, h3, h4, h5,
    h6, h7, Bool.not_true, Bool.not_false, Bool.false_eq_true, Bool.true_eq_false,
    if_true, if_false] <;>
  (try split_ifs) <;>
  exact ⟨by trivial, by trivial, by trivial⟩

theorem combined_pages (env : CombinedEnv) (i? : Option MHMDWorkflowInput)
    (uf ub : String) :
    (execute_combined_mhmd_swagger_workflow env i? uf ub).pagesClosed =
      (execute_combined_mhmd_swagger_workflow env i? uf ub).pagesOpened ∧
    (execute_combined_mhmd_swagger_workflow env i? uf ub).pagesOpened ≤ 2 ∧
    (execute_combined_mhmd_swagger_workflow env i? uf ub).postsCreate = 0 := by
  have T := toggle_pages { env.toggleEnv with browserConnected := true }
    (combinedEffInput env i?) uf
  have S := swagger_pages { env.swaggerEnv with browserConnected := true } ub
  have hT1 : (execute_mhmd_toggle_workflow { env.toggleEnv with browserConnected := true }
      (combinedEffInput env i?) uf).pagesOpened = 1 := by simpa using T.1
  have hS1 : (execute_swagger_ui_only_workflow { env.swaggerEnv with browserConnected := true }
      ub).pagesOpened = 1 := by simpa using S.1
  cases hb : env.browserConnected <;>
  cases hm : (execute_mhmd_toggle_workflow { env.toggleEnv with browserConnected := true }
      (combinedEffInput env i?) uf).result.success <;>
  cases hs : (execute_swagger_ui_only_workflow { env.swaggerEnv with browserConnected := true }
      ub).result.success <;>
  simp only [execute_combined_mhmd_swagger_workflow, combinedFailure, hb, hm, hs,
    Bool.not_true, Bool.not_false, Bool.false_eq_true, Bool.true_eq_false,
    if_true, if_false] <;>
  simp [hT1, hS1, T.2.1, S.2.1, T.2.2, S.2.2]

/-- C4 (amended): each page-owning workflow — preference-toggle, API-
verification-only, swagger-api-test — opens exactly one page when the
initial browser check passes (zero when it fails) and closes every page it
opened on every exit path; the combined workflow opens no page of its own,
so one combined invocation opens up to two pages through its sub-workflows,
all closed by return. -/
theorem C4_page_lifecycle :
    (∀ (env : ToggleEnv) (input : MHMDWorkflowInput) (url : String),
        (execute_mhmd_toggle_workflow env input url).pagesOpened =
          (if env.browserConnected then 1 else 0) ∧
        (execute_mhmd_toggle_workflow env input url).pagesClosed =
          (execute_mhmd_toggle_workflow env input url).pagesOpened) ∧
    (∀ (env : SwaggerEnv) (url : String),
        (execute_swagger_ui_only_workflow env url).pagesOpened =
          (if env.browserConnected then 1 else 0) ∧
        (execute_swagger_ui_only_workflow env url).pagesClosed =
          (execute_swagger_ui_only_workflow env url).pagesOpened) ∧
    (∀ (env : ApiTestEnv) (url : String),
        (execute_swagger_api_test_workflow env url).pagesOpened =
          (if env.browserConnected then 1 else 0) ∧
        (execute_swagger_api_test_workflow env url).pagesClosed =
          (execute_swagger_api_test_workflow env url).pagesOpened) ∧
    (∀ (env : CombinedEnv) (i? : Option MHMDWorkflowInput) (uf ub : String),
        (execute_combined_mhmd_swagger_workflow env i? uf ub).pagesClosed =
          (execute_combined_mhmd_swagger_workflow env i? uf ub).pagesOpened ∧
        (execute_combined_mhmd_swagger_workflow env i? uf ub).pagesOpened ≤ 2) :=
  ⟨fun env input url => ⟨(toggle_pages env input url).1, (toggle_pages env input url).2.1⟩,
   fun env url => ⟨(swagger_pages env url).1, (swagger_pages env url).2.1⟩,
   fun env url => ⟨(apiTest_pages env url).1, (apiTest_pages env url).2.1⟩,
   fun env i? uf ub =>
     ⟨(combined_pages env i? uf ub).1, (combined_pages env i? uf ub).2.1⟩⟩

/-- C4 counterexample: a fully-successful combined invocation opens two
pages (one per sub-workflow), not exactly one; both are closed by return. -/
theorem C4_combined_two_pages_counterexample :
    (execute_combined_mhmd_swagger_workflow okCombinedEnv none "http://localhost:3000"
      "http://localhost:8000").pagesOpened = 2 ∧
    (execute_combined_mhmd_swagger_workflow okCombinedEnv none "http://localhost:3000"
      "http://localhost:8000").pagesClosed = 2 ∧
    (2 : Nat) ≠ 1 := ⟨rfl, rfl, by decide⟩

theorem noSwaggerEcho_append (a b : List String) :
    noSwaggerEcho (a ++ b) = (noSwaggerEcho a && noSwaggerEcho b) := by
  unfold noSwaggerEcho
  exact List.all_append

theorem noSwaggerEcho_mhmdMap (l : List String) :
    noSwaggerEcho (l.map (fun s => "📋 MHMD Workflow: " ++ s)) = true := by
  unfold noSwaggerEcho
  rw [List.all_map]
  apply List.all_eq_true.mpr
  intro x hx
  simp [Function.comp, List.isPrefixOf]

theorem noSwaggerEcho_errStep (msg : String) :
    noSwaggerEcho ["❌ Combined workflow error: " ++ msg] = true := by
  unfold noSwaggerEcho
  simp [List.isPrefixOf]

/-- C6: when the toggle sub-workflow fails, the combined workflow never
starts the Swagger sub-workflow; its envelope is a failure surfacing the
toggle failure's message, the `swagger_result` key is absent, and the step
log contains no echoed Swagger step. -/
theorem C6_first_failure_aborts_combined (envC : CombinedEnv)
    (i? : Option MHMDWorkflowInput) (uf ub : String)
    (h0 : envC.browserConnected = true)
    (h : (execute_mhmd_toggle_workflow { envC.toggleEnv with browserConnected := true }
      (combinedEffInput envC i?) uf).result.success = false) :
    (execute_combined_mhmd_swagger_workflow envC i? uf ub).result.success = false ∧
    (execute_combined_mhmd_swagger_workflow envC i? uf ub).swaggerInvoked = false ∧
    (execute_combined_mhmd_swagger_workflow envC i? uf ub).result.swagger_result = none ∧
    (execute_combined_mhmd_swagger_workflow envC i? uf ub).result.message =
      "Combined workflow failed: " ++ ("MHMD workflow failed: " ++
        (execute_mhmd_toggle_workflow { envC.toggleEnv with browserConnected := true }
          (combinedEffInput envC i?) uf).result.message) ∧
    noSwaggerEcho
      ((execute_combined_mhmd_swagger_workflow envC i? uf ub).result.workflow_steps)
      = true := by
  simp only [execute_combined_mhmd_swagger_workflow, combinedFailure, h0, h,
    Bool.not_true, Bool.not_false, Bool.false_eq_true, Bool.true_eq_false,
    if_true, if_false]
  refine ⟨by trivial, by trivial, by trivial, by trivial, ?_⟩
  rw [noSwaggerEcho_append, noSwaggerEcho_append, noSwaggerEcho_append]
  rw [noSwaggerEcho_mhmdMap, noSwaggerEcho_errStep]
  rw [show noSwaggerEcho ["🔄 Starting MHMD workflow to create test user..."] = true
    from by decide]
  rw [show noSwaggerEcho
      (if truthyOS (execute_mhmd_toggle_workflow
          { envC.toggleEnv with browserConnected := true }
          (combinedEffInput envC i?) uf).result.screenshot then
        ["📸 MHMD preferences screenshot captured"] else []) = true from by
    split
    · decide
    · decide]
  rfl

/-- C6 witness: a combined run whose toggle sub-workflow fails at the save
click never starts the Swagger sub-workflow and omits `swagger_result`. -/
theorem C6_first_failure_aborts_combined_witness :
    failCombinedEnv.browserConnected = true ∧
    (execute_mhmd_toggle_workflow { failCombinedEnv.toggleEnv with browserConnected := true }
      (combinedEffInput failCombinedEnv none) "http://localhost:3000").result.success
      = false ∧
    ((execute_combined_mhmd_swagger_workflow failCombinedEnv none "http://localhost:3000"
        "http://localhost:8000").result.success = false ∧
     (execute_combined_mhmd_swagger_workflow failCombinedEnv none "http://localhost:3000"
        "http://localhost:8000").swaggerInvoked = false ∧
     (execute_combined_mhmd_swagger_workflow failCombinedEnv none "http://localhost:3000"
        "http://localhost:8000").result.swagger_result = none ∧
     (execute_combined_mhmd_swagger_workflow failCombinedEnv none "http://localhost:3000"
        "http://localhost:8000").result.message =
       "Combined workflow failed: " ++ ("MHMD workflow failed: " ++
         (execute_mhmd_toggle_workflow
           { failCombinedEnv.toggleEnv with browserConnected := true }
           (combinedEffInput failCombinedEnv none) "http://localhost:3000").result.message) ∧
     noSwaggerEcho ((execute_combined_mhmd_swagger_workflow failCombinedEnv none
        "http://localhost:3000" "http://localhost:8000").result.workflow_steps) = true) :=
  ⟨rfl, rfl,
   C6_first_failure_aborts_combined failCombinedEnv none "http://localhost:3000"
     "http://localhost:8000" rfl rfl⟩

theorem failureExec_prims_head (ee : ErrEnv) (pfx note : String) (steps0 : List String)
    (a : Prim) (rest : List Prim) (po : Bool) (posts : Nat) (errMsg : String) :
    ((failureExec ee pfx note steps0 (a :: rest) po posts errMsg).prims).head? = some a := by
  unfold failureExec
  cases po <;> cases h : ee.errorScreenshotResult <;> simp

set_option maxHeartbeats 1000000 in
theorem apiTest_first_prim (env : ApiTestEnv) (url : String)
    (hb : env.browserConnected = true) :
    (execute_swagger_api_test_workflow env url).prims.head? = some Prim.postCreateUser := by
  cases hg : env.gotoResult <;>
  cases h1 : env.uiLoad <;>
  cases h2 : env.endpointClick <;>
  cases h3 : env.tryItClick <;>
  cases h4 : env.executeClick <;>
  cases h5 : env.responseWait <;>
  cases h6 : env.statusRead <;>
  cases h7 : env.screenshotResult <;>
  simp only [execute_swagger_api_test_workflow, hb, hg, h1, h2, h3, h4, h5, h6, h7,
    Bool.not_true, Bool.not_false, Bool.false_eq_true, Bool.true_eq_false,
    if_true, if_false] <;>
  (try split_ifs) <;>
  simp [failureExec_prims_head]

theorem nl_swagger_only_dispatch (envN : NLEnv) (cmd burl : String)
    (h1 : nlClassifiesSwaggerOnly envN.rawReply = true) :
    (process_natural_language_command envN cmd burl).dispatched = some .swaggerOnlyW ∧
    (process_natural_language_command envN cmd burl).postsCreate =
      (execute_swagger_api_test_workflow envN.apiTestEnv
        "http://localhost:8000").postsCreate := by
  unfold nlClassifiesSwaggerOnly nlWorkflowType at h1
  unfold process_natural_language_command
  cases hj : jsonLoads ((extractJson (pyStrip envN.rawReply)).getD (pyStrip envN.rawReply)) with
  | none => simp [hj] at h1
  | some v =>
      cases v with
      | obj fields =>
          simp only [hj] at h1 ⊢
          have hwt : jvalEqStr ((jlookup fields "workflow_type").getD (JVal.str "mhmd_only"))
              "swagger_only" = true := h1
          cases hl : (jlookup fields "workflow_type").getD (JVal.str "mhmd_only") with
          | str s =>
              rw [hl] at hwt
              have hs : s = "swagger_only" := by
                simpa [jvalEqStr] using hwt
              subst hs
              simp [jvalEqStr]
          | null => rw [hl] at hwt; simp [jvalEqStr] at hwt
          | boolV b => rw [hl] at hwt; simp [jvalEqStr] at hwt
          | num n => rw [hl] at hwt; simp [jvalEqStr] at hwt
          | arr xs => rw [hl] at hwt; simp [jvalEqStr] at hwt
          | obj fs => rw [hl] at hwt; simp [jvalEqStr] at hwt
      | null => simp [hj] at h1
      | boolV b => simp [hj] at h1
      | num n => simp [hj] at h1
      | str s => simp [hj] at h1
      | arr xs => simp [hj] at h1

/-- C7 (amended): the API-verification-only workflow performs no
record-creating POST; the swagger-api-test tool entry performs exactly one,
issued before any Swagger-UI step; the combined workflow's second phase
dispatches into the verification-only variant and so performs none — but
the free-text `swagger_only` classification path dispatches into the
create-then-verify swagger-api-test workflow, not the verification-only
variant (see the counterexample). -/
theorem C7_create_vs_verify (envO : SwaggerEnv) (urlO : String) (envA : ApiTestEnv)
    (urlA : String) (envC : CombinedEnv) (i? : Option MHMDWorkflowInput) (uf ub : String)
    (envN : NLEnv) (cmd burl : String)
    (h1 : nlClassifiesSwaggerOnly envN.rawReply = true)
    (h2 : envA.browserConnected = true) :
    (execute_swagger_ui_only_workflow envO urlO).postsCreate = 0 ∧
    (execute_swagger_api_test_workflow envA urlA).postsCreate = 1 ∧
    (execute_swagger_api_test_workflow envA urlA).prims.head? = some Prim.postCreateUser ∧
    (execute_combined_mhmd_swagger_workflow envC i? uf ub).postsCreate = 0 ∧
    (process_natural_language_command envN cmd burl).dispatched = some .swaggerOnlyW ∧
    (process_natural_language_command envN cmd burl).postsCreate =
      (if envN.apiTestEnv.browserConnected then 1 else 0) := by
  refine ⟨(swagger_pages envO urlO).2.2, ?_, apiTest_first_prim envA urlA h2,
    (combined_pages envC i? uf ub).2.2, (nl_swagger_only_dispatch envN cmd burl h1).1, ?_⟩
  · rw [(apiTest_pages envA urlA).2.2, h2]
    rfl
  · rw [(nl_swagger_only_dispatch envN cmd burl h1).2,
      (apiTest_pages envN.apiTestEnv "http://localhost:8000").2.2]

/-- C7 witness: concrete environments for all four dispatch sites. -/
theorem C7_create_vs_verify_witness :
    nlClassifiesSwaggerOnly (sampleNLEnv swaggerOnlyReply).rawReply = true ∧
    okApiTestEnv.browserConnected = true ∧
    ((execute_swagger_ui_only_workflow okSwaggerEnv "http://localhost:8000").postsCreate = 0 ∧
     (execute_swagger_api_test_workflow okApiTestEnv "http://localhost:8000").postsCreate = 1 ∧
     (execute_swagger_api_test_workflow okApiTestEnv "http://localhost:8000").prims.head?
       = some Prim.postCreateUser ∧
     (execute_combined_mhmd_swagger_workflow okCombinedEnv none "http://localhost:3000"
       "http://localhost:8000").postsCreate = 0 ∧
     (process_natural_language_command (sampleNLEnv swaggerOnlyReply) "test the api"
       "http://localhost:3000").dispatched = some .swaggerOnlyW ∧
     (process_natural_language_command (sampleNLEnv swaggerOnlyReply) "test the api"
       "http://localhost:3000").postsCreate =
       (if (sampleNLEnv swaggerOnlyReply).apiTestEnv.browserConnected then 1 else 0)) :=
  ⟨rfl, rfl,
   C7_create_vs_verify okSwaggerEnv "http://localhost:8000" okApiTestEnv
     "http://localhost:8000" okCombinedEnv none "http://localhost:3000"
     "http://localhost:8000" (sampleNLEnv swaggerOnlyReply) "test the api"
     "http://localhost:3000" rfl rfl⟩

/-- C7 counterexample: a reply classified `swagger_only` dispatches into the
create-then-verify swagger-api-test workflow — the dispatched run performs a
record-creating POST, so this path does not reach the API-verification-only
(no-create) variant the claim describes. -/
theorem C7_swagger_only_creates_counterexample :
    nlClassifiesSwaggerOnly swaggerOnlyReply = true ∧
    (process_natural_language_command (sampleNLEnv swaggerOnlyReply) "test the api"
      "http://localhost:3000").dispatched = some .swaggerOnlyW ∧
    (process_natural_language_command (sampleNLEnv swaggerOnlyReply) "test the api"
      "http://localhost:3000").postsCreate = 1 ∧
    (1 : Nat) ≠ 0 := ⟨rfl, rfl, rfl, by decide⟩

theorem extractJsonAux_skip (pre rest : List Char)
    (h : pre.all (fun c => !(c == '{') && !(c == '}')) = true) :
    extractJsonAux (pre ++ rest) none = extractJsonAux rest none := by
  induction pre with
  | nil => rfl
  | cons c cs ih =>
      simp only [List.all_cons, Bool.and_eq_true] at h
      have hc1 : ¬ (c = '{') := by
        intro hh
        rw [hh] at h
        simp at h
      have hc2 : ¬ (c = '}') := by
        intro hh
        rw [hh] at h
        simp at h
      rw [List.cons_append]
      rw [show extractJsonAux (c :: (cs ++ rest)) none = extractJsonAux (cs ++ rest) none
        from by simp [extractJsonAux, hc1, hc2]]
      exact ih h.2

theorem extractJsonAux_close (mid post acc : List Char)
    (h : mid.all (fun c => !(c == '{') && !(c == '}')) = true) :
    extractJsonAux (mid ++ '}' :: post) (some acc) =
      some (String.mk (('}' :: (mid.reverse ++ acc)).reverse)) := by
  induction mid generalizing acc with
  | nil => simp [extractJsonAux]
  | cons c cs ih =>
      simp only [List.all_cons, Bool.and_eq_true] at h
      have hc1 : ¬ (c = '{') := by
        intro hh
        rw [hh] at h
        simp at h
      have hc2 : ¬ (c = '}') := by
        intro hh
        rw [hh] at h
        simp at h
      rw [List.cons_append]
      rw [show extractJsonAux (c :: (cs ++ '}' :: post)) (some acc) =
            extractJsonAux (cs ++ '}' :: post) (some (c :: acc))
        from by simp [extractJsonAux, hc1, hc2]]
      rw [ih (c :: acc) h.2]
      congr 1
      apply congrArg
      simp

theorem extractJson_flat_object (pre mid post obj : String)
    (hobj : obj.data = '{' :: (mid.data ++ ['}']))
    (hpre : noBraces pre = true) (hmid : noBraces mid = true) :
    extractJson (pre ++ obj ++ post) = some obj := by
  unfold extractJson
  have hd : (pre ++ obj ++ post).data = pre.data ++ (obj.data ++ post.data) := by
    rw [strDataAppend, strDataAppend, List.append_assoc]
  rw [hd]
  rw [extractJsonAux_skip pre.data _ (by simpa [noBraces] using hpre)]
  rw [hobj]
  rw [show ('{' :: (mid.data ++ ['}'])) ++ post.data =
        '{' :: (mid.data ++ '}' :: post.data) from by simp]
  rw [show extractJsonAux ('{' :: (mid.data ++ '}' :: post.data)) none =
        extractJsonAux (mid.data ++ '}' :: post.data) (some ['{'])
    from by simp [extractJsonAux]]
  rw [extractJsonAux_close mid.data post.data ['{'] (by simpa [noBraces] using hmid)]
  have hrev : (('}' :: (mid.data.reverse ++ ['{'])).reverse) = obj.data := by
    rw [hobj]
    simp
  rw [hrev]

theorem nl_parse_failure_envelope (env : NLEnv) (cmd url : String)
    (hB : jsonLoads ((extractJson (pyStrip env.rawReply)).getD (pyStrip env.rawReply))
      = none) :
    (process_natural_language_command env cmd url).result.success = false ∧
    (process_natural_language_command env cmd url).result.workflow_steps = none ∧
    (process_natural_language_command env cmd url).result.raw_ai_response =
      some env.rawReply ∧
    (process_natural_language_command env cmd url).dispatched = none ∧
    ContainsStr (process_natural_language_command env cmd url).result.message
      env.rawReply := by
  unfold process_natural_language_command
  simp only [hB]
  refine ⟨rfl, rfl, rfl, rfl, ?_⟩
  exact containsStr_mid _ _ _

theorem nl_nonobject_envelope (env : NLEnv) (cmd url : String) (v : JVal)
    (hC1 : jsonLoads ((extractJson (pyStrip env.rawReply)).getD (pyStrip env.rawReply))
      = some v)
    (hC2 : v.isObj = false) :
    (process_natural_language_command env cmd url).result.success = false ∧
    (process_natural_language_command env cmd url).result.raw_ai_response =
      some env.rawReply ∧
    (process_natural_language_command env cmd url).dispatched = none := by
  unfold process_natural_language_command
  simp only [hC1]
  cases v with
  | obj fields => simp [JVal.isObj] at hC2
  | null => exact ⟨rfl, rfl, rfl⟩
  | boolV b => exact ⟨rfl, rfl, rfl⟩
  | num n => exact ⟨rfl, rfl, rfl⟩
  | str s => exact ⟨rfl, rfl, rfl⟩
  | arr xs => exact ⟨rfl, rfl, rfl⟩

/-- C5 (amended): the classifier strips whitespace and locates the first
brace-delimited substring that contains no nested braces — for a reply that
is brace-free prose around one flat JSON object this is exactly that object
(the claim's "first balanced brace-delimited substring" fails on replies
whose object nests, see the counterexample); a reply with no parseable
object, or one parsing to a non-mapping, short-circuits — without retrying
the model call — into a failure envelope that echoes the raw reply verbatim
in both its message and its `raw_ai_response` field and carries no
`workflow_steps`. -/
theorem C5_defensive_parse (pre mid post obj : String)
    (hobj : obj.data = '{' :: (mid.data ++ ['}']))
    (hpre : noBraces pre = true) (hmid : noBraces mid = true)
    (envB : NLEnv) (cmdB urlB : String)
    (hB : jsonLoads ((extractJson (pyStrip envB.rawReply)).getD (pyStrip envB.rawReply))
      = none)
    (envC : NLEnv) (cmdC urlC : String) (v : JVal)
    (hC1 : jsonLoads ((extractJson (pyStrip envC.rawReply)).getD (pyStrip envC.rawReply))
      = some v)
    (hC2 : v.isObj = false) :
    extractJson (pre ++ obj ++ post) = some obj ∧
    ((process_natural_language_command envB cmdB urlB).result.success = false ∧
     (process_natural_language_command envB cmdB urlB).result.workflow_steps = none ∧
     (process_natural_language_command envB cmdB urlB).result.raw_ai_response =
       some envB.rawReply ∧
     (process_natural_language_command envB cmdB urlB).dispatched = none ∧
     ContainsStr (process_natural_language_command envB cmdB urlB).result.message
       envB.rawReply) ∧
    ((process_natural_language_command envC cmdC urlC).result.success = false ∧
     (process_natural_language_command envC cmdC urlC).result.raw_ai_response =
       some envC.rawReply ∧
     (process_natural_language_command envC cmdC urlC).dispatched = none) :=
  ⟨extractJson_flat_object pre mid post obj hobj hpre hmid,
   nl_parse_failure_envelope envB cmdB urlB hB,
   nl_nonobject_envelope envC cmdC urlC v hC1 hC2⟩

/-- C5 witness: a flat object wrapped in prose is extracted exactly; a
gibberish reply and a JSON-array reply both produce the verbatim-echo
failure envelope with no dispatch. -/
theorem C5_defensive_parse_witness :
    ("\x7b\"workflow_type\": \"mhmd_only\"\x7d" : String).data =
      '{' :: (("\"workflow_type\": \"mhmd_only\"" : String).data ++ ['}']) ∧
    noBraces "Here is the JSON: " = true ∧
    noBraces "\"workflow_type\": \"mhmd_only\"" = true ∧
    jsonLoads ((extractJson (pyStrip (sampleNLEnv gibberishReply).rawReply)).getD
      (pyStrip (sampleNLEnv gibberishReply).rawReply)) = none ∧
    jsonLoads ((extractJson (pyStrip (sampleNLEnv "[1, 2]").rawReply)).getD
      (pyStrip (sampleNLEnv "[1, 2]").rawReply)) = some (JVal.arr [JVal.num 1, JVal.num 2]) ∧
    (JVal.arr [JVal.num 1, JVal.num 2]).isObj = false ∧
    (extractJson ("Here is the JSON: " ++ "\x7b\"workflow_type\": \"mhmd_only\"\x7d"
        ++ " -- thanks") = some "\x7b\"workflow_type\": \"mhmd_only\"\x7d" ∧
     ((process_natural_language_command (sampleNLEnv gibberishReply) "c"
         "http://localhost:3000").result.success = false ∧
      (process_natural_language_command (sampleNLEnv gibberishReply) "c"
         "http://localhost:3000").result.workflow_steps = none ∧
      (process_natural_language_command (sampleNLEnv gibberishReply) "c"
         "http://localhost:3000").result.raw_ai_response =
        some (sampleNLEnv gibberishReply).rawReply ∧
      (process_natural_language_command (sampleNLEnv gibberishReply) "c"
         "http://localhost:3000").dispatched = none ∧
      ContainsStr (process_natural_language_command (sampleNLEnv gibberishReply) "c"
         "http://localhost:3000").result.message (sampleNLEnv gibberishReply).rawReply) ∧
     ((process_natural_language_command (sampleNLEnv "[1, 2]") "c"
         "http://localhost:3000").result.success = false ∧
      (process_natural_language_command (sampleNLEnv "[1, 2]") "c"
         "http://localhost:3000").result.raw_ai_response =
        some (sampleNLEnv "[1, 2]").rawReply ∧
      (process_natural_language_command (sampleNLEnv "[1, 2]") "c"
         "http://localhost:3000").dispatched = none)) :=
  ⟨rfl, by decide, by decide, rfl, rfl, rfl,
   C5_defensive_parse "Here is the JSON: " "\"workflow_type\": \"mhmd_only\""
     " -- thanks" "\x7b\"workflow_type\": \"mhmd_only\"\x7d" rfl (by decide) (by decide)
     (sampleNLEnv gibberishReply) "c" "http://localhost:3000" rfl
     (sampleNLEnv "[1, 2]") "c" "http://localhost:3000"
     (JVal.arr [JVal.num 1, JVal.num 2]) rfl rfl⟩

/-- C5 counterexample: a reply that is one JSON object with a nested object.
The spec-side first balanced brace-delimited substring is the whole object
(whose `workflow_type` is `combined`), but the code's regex extracts only
the nested fragment, the `workflow_type` field is lost, and the command is
dispatched to the default mhmd-only workflow instead of the combined one. -/
theorem C5_nested_object_counterexample :
    specFirstBalancedBraces nestedReply = some nestedReply ∧
    extractJson nestedReply = some "\x7b\"x\": 1\x7d" ∧
    extractJson nestedReply ≠ specFirstBalancedBraces nestedReply ∧
    (process_natural_language_command (sampleNLEnv nestedReply) "c"
      "http://localhost:3000").dispatched = some .mhmdOnlyW ∧
    (process_natural_language_command (sampleNLEnv nestedReply) "c"
      "http://localhost:3000").dispatched ≠ some .combinedW := by
  refine ⟨rfl, rfl, ?_, rfl, ?_⟩
  · rw [show extractJson nestedReply = some "\x7b\"x\": 1\x7d" from rfl]
    rw [show specFirstBalancedBraces nestedReply = some nestedReply from rfl]
    decide
  · rw [show (process_natural_language_command (sampleNLEnv nestedReply) "c"
        "http://localhost:3000").dispatched = some Dispatched.mhmdOnlyW from rfl]
    decide
theorem containsStr_empty (s : String) : ContainsStr s "" := ⟨[], s.data, by simp⟩

theorem getD_empty_of_not_truthy (o : Option String) (h : truthyOS o = false) :
    o.getD "" = "" := by
  cases o with
  | none => rfl
  | some s =>
      simp only [truthyOS, Bool.not_eq_false] at h
      simpa using h

theorem stepsEnumAux_contains (steps : List String) (i : Nat) (s : String)
    (hs : s ∈ steps) : ContainsStr (stepsEnumAux steps i) s := by
  induction steps generalizing i with
  | nil => cases hs
  | cons x xs ih =>
      cases hs with
      | head =>
          exact (((ContainsStr.self _).addLeft _).addRight _).addRight _
      | tail _ hmem =>
          exact (ih (i + 1) hmem).addLeft _

set_option maxHeartbeats 2000000 in
theorem mhmdRender_message (r : WorkflowResult) :
    ContainsStr (renderMhmdToggleText r) r.message := by
  unfold renderMhmdToggleText
  exact (((((((containsStr_mid "📋 Message: " r.message "\n").addLeft _).addRight
    _).addRight _).addRight _).addRight _).addRight _).addRight _

theorem mhmdRender_finalPref (r : WorkflowResult) :
    ContainsStr (renderMhmdToggleText r) (r.final_preference.getD "") := by
  cases hf : truthyOS r.final_preference with
  | false =>
      rw [getD_empty_of_not_truthy _ hf]
      exact containsStr_empty _
  | true =>
      unfold renderMhmdToggleText
      simp only [hf, reduceIte]
      exact ((((((containsStr_mid "🎯 Final MHMD Preference: "
        (r.final_preference.getD "") "\n").addLeft _).addRight _).addRight _).addRight
        _).addRight _).addRight _

theorem mhmdRender_steps (r : WorkflowResult) :
    r.workflow_steps.all
      (fun s => decide (ContainsStr (renderMhmdToggleText r) s)) = true := by
  cases hst : r.workflow_steps.isEmpty with
  | true =>
      rw [show r.workflow_steps = [] from by
        cases hl : r.workflow_steps
        · rfl
        · rw [hl] at hst; simp at hst]
      rfl
  | false =>
      rw [List.all_eq_true]
      intro s hs
      rw [decide_eq_true_eq]
      unfold renderMhmdToggleText
      simp only [hst, reduceIte, Bool.false_eq_true]
      exact ((((((stepsEnumAux_contains r.workflow_steps 1 s hs).addLeft
        "📝 Workflow Steps:\n").addLeft _).addRight _).addRight _).addRight
        _).addRight _

theorem mhmdRender_shotPresence (r : WorkflowResult) :
    ContainsStr (renderMhmdToggleText r)
      (if truthyOS r.screenshot then "📸 Screenshot: Captured successfully" else "") := by
  cases hsc : truthyOS r.screenshot with
  | false =>
      simp only [hsc, Bool.false_eq_true, reduceIte]
      exact containsStr_empty _
  | true =>
      simp only [hsc, reduceIte]
      unfold renderMhmdToggleText
      simp only [hsc, reduceIte]
      rw [show ("📸 Screenshot: Captured successfully (length: " : String) =
        "📸 Screenshot: Captured successfully" ++ " (length: " from by decide]
      exact (((((((ContainsStr.self
        "📸 Screenshot: Captured successfully").addRight _).addRight _).addRight
        _).addLeft _).addRight _).addRight _).addRight _

theorem mhmdRender_shotLength (r : WorkflowResult) :
    ContainsStr (renderMhmdToggleText r)
      (if truthyOS r.screenshot then toString (r.screenshot.getD "").length else "") := by
  cases hsc : truthyOS r.screenshot with
  | false =>
      simp only [hsc, Bool.false_eq_true, reduceIte]
      exact containsStr_empty _
  | true =>
      simp only [hsc, reduceIte]
      unfold renderMhmdToggleText
      simp only [hsc, reduceIte]
      exact ((((containsStr_mid "📸 Screenshot: Captured successfully (length: "
        (toString (r.screenshot.getD "").length) " chars)\n").addLeft _).addRight
        _).addRight _).addRight _

theorem mhmdRender_shotPath (r : WorkflowResult) :
    ContainsStr (renderMhmdToggleText r) (r.screenshot_file_path.getD "") := by
  cases hsp : truthyOS r.screenshot_file_path with
  | false =>
      rw [getD_empty_of_not_truthy _ hsp]
      exact containsStr_empty _
  | true =>
      unfold renderMhmdToggleText
      simp only [hsp, reduceIte]
      exact (((containsStr_mid "🖼️ Screenshot File: "
        (r.screenshot_file_path.getD "") "\n").addLeft _).addRight _).addRight _

theorem mhmdRender_dbVerif (r : WorkflowResult) :
    ContainsStr (renderMhmdToggleText r)
      ((r.database_verification.map prefReadRepr).getD "") := by
  cases hdb : r.database_verification with
  | none =>
      exact containsStr_empty _
  | some d =>
      show ContainsStr (renderMhmdToggleText r) (prefReadRepr d)
      unfold renderMhmdToggleText
      simp only [hdb]
      exact ((containsStr_mid "💾 Database Verification: "
        (prefReadRepr d) "\n").addLeft _).addRight _

theorem mhmdRender_verifPath (r : WorkflowResult) :
    ContainsStr (renderMhmdToggleText r) (r.verification_file_path.getD "") := by
  cases hvp : truthyOS r.verification_file_path with
  | false =>
      rw [getD_empty_of_not_truthy _ hvp]
      exact containsStr_empty _
  | true =>
      unfold renderMhmdToggleText
      simp only [hvp, reduceIte]
      exact ((containsStr_mid "📄 Verification File: "
        (r.verification_file_path.getD "") "\n").addLeft _)

/-- C8: for the `mhmd_toggle_workflow` handler the claim holds on every
successful envelope: the rendered report contains the envelope's message, its
final preference, every workflow step (enumerated), the screenshot-presence
marker together with the screenshot's character length, the screenshot and
verification file paths, and the database-verification payload; and the
handler's returned text is exactly the accumulated report stripped of
surrounding whitespace. (The `ai_browser_automation` handler, by contrast,
drops fields — see the counterexample.) -/
theorem C8_render_preserves (r : WorkflowResult) (h : r.success = true) :
    MhmdRenderPreserves r ∧
    renderMhmdToggle r = pyStrip (renderMhmdToggleText r) := by
  refine ⟨⟨mhmdRender_message r, mhmdRender_finalPref r, mhmdRender_steps r,
    mhmdRender_shotPresence r, mhmdRender_shotLength r, mhmdRender_shotPath r,
    mhmdRender_dbVerif r, mhmdRender_verifPath r⟩, ?_⟩
  unfold renderMhmdToggle
  simp only [h, reduceIte]

/-- Witness for C8 at the sample successful envelope. -/
theorem C8_render_preserves_witness :
    sampleEnvelope.success = true ∧
    (MhmdRenderPreserves sampleEnvelope ∧
     renderMhmdToggle sampleEnvelope = pyStrip (renderMhmdToggleText sampleEnvelope)) :=
  ⟨rfl, C8_render_preserves sampleEnvelope rfl⟩

set_option maxRecDepth 8000 in
/-- Counterexample to C8 as stated over every tool handler: the
`ai_browser_automation` handler's rendered report silently drops the
screenshot file path and the database-verification payload (and carries no
step enumeration, screenshot length, final preference or verification path),
even on a successful envelope that carries them. -/
theorem C8_ai_handler_drops_counterexample :
    sampleEnvelope.success = true ∧
    truthyOS sampleEnvelope.screenshot_file_path = true ∧
    sampleEnvelope.database_verification.isSome = true ∧
    ¬ ContainsStr (renderAiBrowserAutomation sampleEnvelope)
        (sampleEnvelope.screenshot_file_path.getD "") ∧
    ¬ ContainsStr (renderAiBrowserAutomation sampleEnvelope)
        ((sampleEnvelope.database_verification.map prefReadRepr).getD "") := by
  refine ⟨rfl, rfl, rfl, ?_, ?_⟩ <;> decide
